import Mathlib

/-!
Verification of the otelx tracing-bootstrap library (Go) against its
specification.  The definitions below are a shallow embedding of the
repository's source files:

* `src/unnamed/part_002` (config): `Config`, `Config.sanitize`,
  `Config.validate`, `DefaultSamplingRatio`, the exporter string constants;
* `src/exporter.go`: `buildExporter` (the variant dispatcher and the
  error-wrapping of construction failures);
* `src/options.go`: the functional options (`SetupOpt`, `applyOpt`);
* `src/provider.go`: `Setup`, the `Provider` handle and its `Shutdown`.

Go strings are Lean `String`s; Go `float64` ratios are embedded as `ℚ`
(the code only copies and compares them, it never computes with them);
Go nilable values (`*float64`, interfaces, function fields, `*Provider`)
are `Option`s.  Effectful steps whose outcome is produced by external
collaborators (exporter construction inside the OpenTelemetry SDK,
resource detection, the SDK provider's shutdown) are parameters of an
`Env` record: `none`/`some cause` stands for their success or failure.
`Setup` additionally returns the list of observable actions it performed
(`Event`), in source order, so that ordering and resource-release
properties can be stated.
-/

namespace Otelx

/-- Embedding of Go `unicode.IsSpace` (the white-space set used by
`strings.TrimSpace`): the Unicode White_Space property \u2014 the ASCII
space characters `\t \n \v \f \r` and space, NEL, NBSP, OGHAM SPACE
MARK, the EN-QUAD..HAIR-SPACE range, LINE/PARAGRAPH SEPARATOR, NARROW
NO-BREAK SPACE, MEDIUM MATHEMATICAL SPACE and IDEOGRAPHIC SPACE. -/
def goIsSpace (c : Char) : Bool :=
  [' ', '\t', '\n', '\x0B', '\x0C', '\r', '\u0085', '\u00A0', '\u1680',
   '\u2000', '\u2001', '\u2002', '\u2003', '\u2004', '\u2005', '\u2006',
   '\u2007', '\u2008', '\u2009', '\u200A', '\u2028', '\u2029', '\u202F',
   '\u205F', '\u3000'].contains c

/-- Embedding of Go `strings.TrimSpace` on the underlying character list:
drop white space from the front, then from the back. -/
def trimSpaceList (l : List Char) : List Char :=
  (((l.dropWhile goIsSpace).reverse).dropWhile goIsSpace).reverse

/-- Embedding of Go `strings.TrimSpace`. -/
def trimSpace (s : String) : String := String.mk (trimSpaceList s.data)

/-- A binary search tree of code-point/code-point pairs, the shape in
which the Unicode simple-lowercase table is held here (keys are code
points, values their lowercase mapping). -/
inductive CaseTree where
  | leaf
  | node (l : CaseTree) (key val : Nat) (r : CaseTree)

/-- Search-tree descent: the mapped value of code point `n`, if the tree
holds one. -/
def CaseTree.find : CaseTree → Nat → Option Nat
  | .leaf, _ => none
  | .node l k v r, n => if n < k then l.find n else if k < n then r.find n else some v

/-- Every mapped value of the tree satisfies `p`. -/
def CaseTree.allVals (p : Nat → Bool) : CaseTree → Bool
  | .leaf => true
  | .node l _ v r => p v && l.allVals p && r.allVals p

/-- The Unicode (14.0.0) simple lowercase mapping above the ASCII range:
every code point whose SimpleLowercaseMapping (UnicodeData.txt) differs
from the code point itself, keyed by code point.  This is the mapping Go
`unicode.ToLower` applies (through its `CaseRanges` delta table) when
the ASCII fast path does not hit. -/
def lowerTree : CaseTree :=
  (.node (.node (.node (.node (.node (.node (.node (.node (.node (.node .leaf 0xC0 0xE0 .leaf)
    0xC1 0xE1 (.node .leaf 0xC2 0xE2 (.node .leaf 0xC3 0xE3 .leaf))) 0xC4 0xE4 (.node (.node
    .leaf 0xC5 0xE5 (.node .leaf 0xC6 0xE6 .leaf)) 0xC7 0xE7 (.node .leaf 0xC8 0xE8 (.node .leaf
    0xC9 0xE9 .leaf)))) 0xCA 0xEA (.node (.node (.node .leaf 0xCB 0xEB .leaf) 0xCC 0xEC (.node
    .leaf 0xCD 0xED (.node .leaf 0xCE 0xEE .leaf))) 0xCF 0xEF (.node (.node .leaf 0xD0 0xF0
    (.node .leaf 0xD1 0xF1 .leaf)) 0xD2 0xF2 (.node .leaf 0xD3 0xF3 (.node .leaf 0xD4 0xF4
    .leaf))))) 0xD5 0xF5 (.node (.node (.node (.node .leaf 0xD6 0xF6 .leaf) 0xD8 0xF8 (.node
    .leaf 0xD9 0xF9 (.node .leaf 0xDA 0xFA .leaf))) 0xDB 0xFB (.node (.node .leaf 0xDC 0xFC
    (.node .leaf 0xDD 0xFD .leaf)) 0xDE 0xFE (.node .leaf 0x100 0x101 (.node .leaf 0x102 0x103
    .leaf)))) 0x104 0x105 (.node (.node (.node .leaf 0x106 0x107 .leaf) 0x108 0x109 (.node .leaf
    0x10A 0x10B (.node .leaf 0x10C 0x10D .leaf))) 0x10E 0x10F (.node (.node .leaf 0x110 0x111
    (.node .leaf 0x112 0x113 .leaf)) 0x114 0x115 (.node .leaf 0x116 0x117 (.node .leaf 0x118
    0x119 .leaf)))))) 0x11A 0x11B (.node (.node (.node (.node (.node .leaf 0x11C 0x11D .leaf)
    0x11E 0x11F (.node .leaf 0x120 0x121 (.node .leaf 0x122 0x123 .leaf))) 0x124 0x125 (.node
    (.node .leaf 0x126 0x127 (.node .leaf 0x128 0x129 .leaf)) 0x12A 0x12B (.node .leaf 0x12C
    0x12D (.node .leaf 0x12E 0x12F .leaf)))) 0x130 0x69 (.node (.node (.node .leaf 0x132 0x133
    .leaf) 0x134 0x135 (.node .leaf 0x136 0x137 (.node .leaf 0x139 0x13A .leaf))) 0x13B 0x13C
    (.node (.node .leaf 0x13D 0x13E (.node .leaf 0x13F 0x140 .leaf)) 0x141 0x142 (.node .leaf
    0x143 0x144 (.node .leaf 0x145 0x146 .leaf))))) 0x147 0x148 (.node (.node (.node (.node
    .leaf 0x14A 0x14B .leaf) 0x14C 0x14D (.node .leaf 0x14E 0x14F (.node .leaf 0x150 0x151
    .leaf))) 0x152 0x153 (.node (.node .leaf 0x154 0x155 (.node .leaf 0x156 0x157 .leaf)) 0x158
    0x159 (.node .leaf 0x15A 0x15B (.node .leaf 0x15C 0x15D .leaf)))) 0x15E 0x15F (.node (.node
    (.node .leaf 0x160 0x161 .leaf) 0x162 0x163 (.node .leaf 0x164 0x165 (.node .leaf 0x166
    0x167 .leaf))) 0x168 0x169 (.node (.node .leaf 0x16A 0x16B (.node .leaf 0x16C 0x16D .leaf))
    0x16E 0x16F (.node .leaf 0x170 0x171 (.node .leaf 0x172 0x173 .leaf))))))) 0x174 0x175
    (.node (.node (.node (.node (.node (.node .leaf 0x176 0x177 .leaf) 0x178 0xFF (.node .leaf
    0x179 0x17A (.node .leaf 0x17B 0x17C .leaf))) 0x17D 0x17E (.node (.node .leaf 0x181 0x253
    (.node .leaf 0x182 0x183 .leaf)) 0x184 0x185 (.node .leaf 0x186 0x254 (.node .leaf 0x187
    0x188 .leaf)))) 0x189 0x256 (.node (.node (.node .leaf 0x18A 0x257 .leaf) 0x18B 0x18C (.node
    .leaf 0x18E 0x1DD (.node .leaf 0x18F 0x259 .leaf))) 0x190 0x25B (.node (.node .leaf 0x191
    0x192 (.node .leaf 0x193 0x260 .leaf)) 0x194 0x263 (.node .leaf 0x196 0x269 (.node .leaf
    0x197 0x268 .leaf))))) 0x198 0x199 (.node (.node (.node (.node .leaf 0x19C 0x26F .leaf)
    0x19D 0x272 (.node .leaf 0x19F 0x275 (.node .leaf 0x1A0 0x1A1 .leaf))) 0x1A2 0x1A3 (.node
    (.node .leaf 0x1A4 0x1A5 (.node .leaf 0x1A6 0x280 .leaf)) 0x1A7 0x1A8 (.node .leaf 0x1A9
    0x283 (.node .leaf 0x1AC 0x1AD .leaf)))) 0x1AE 0x288 (.node (.node (.node .leaf 0x1AF 0x1B0
    .leaf) 0x1B1 0x28A (.node .leaf 0x1B2 0x28B (.node .leaf 0x1B3 0x1B4 .leaf))) 0x1B5 0x1B6
    (.node (.node .leaf 0x1B7 0x292 (.node .leaf 0x1B8 0x1B9 .leaf)) 0x1BC 0x1BD (.node .leaf
    0x1C4 0x1C6 (.node .leaf 0x1C5 0x1C6 .leaf)))))) 0x1C7 0x1C9 (.node (.node (.node (.node
    (.node .leaf 0x1C8 0x1C9 .leaf) 0x1CA 0x1CC (.node .leaf 0x1CB 0x1CC (.node .leaf 0x1CD
    0x1CE .leaf))) 0x1CF 0x1D0 (.node (.node .leaf 0x1D1 0x1D2 (.node .leaf 0x1D3 0x1D4 .leaf))
    0x1D5 0x1D6 (.node .leaf 0x1D7 0x1D8 (.node .leaf 0x1D9 0x1DA .leaf)))) 0x1DB 0x1DC (.node
    (.node (.node .leaf 0x1DE 0x1DF .leaf) 0x1E0 0x1E1 (.node .leaf 0x1E2 0x1E3 (.node .leaf
    0x1E4 0x1E5 .leaf))) 0x1E6 0x1E7 (.node (.node .leaf 0x1E8 0x1E9 (.node .leaf 0x1EA 0x1EB
    .leaf)) 0x1EC 0x1ED (.node .leaf 0x1EE 0x1EF (.node .leaf 0x1F1 0x1F3 .leaf))))) 0x1F2 0x1F3
    (.node (.node (.node (.node .leaf 0x1F4 0x1F5 .leaf) 0x1F6 0x195 (.node .leaf 0x1F7 0x1BF
    (.node .leaf 0x1F8 0x1F9 .leaf))) 0x1FA 0x1FB (.node (.node .leaf 0x1FC 0x1FD (.node .leaf
    0x1FE 0x1FF .leaf)) 0x200 0x201 (.node .leaf 0x202 0x203 (.node .leaf 0x204 0x205 .leaf))))
    0x206 0x207 (.node (.node (.node .leaf 0x208 0x209 .leaf) 0x20A 0x20B (.node .leaf 0x20C
    0x20D (.node .leaf 0x20E 0x20F .leaf))) 0x210 0x211 (.node (.node .leaf 0x212 0x213 (.node
    .leaf 0x214 0x215 .leaf)) 0x216 0x217 (.node .leaf 0x218 0x219 (.node .leaf 0x21A 0x21B
    .leaf)))))))) 0x21C 0x21D (.node (.node (.node (.node (.node (.node (.node .leaf 0x21E 0x21F
    .leaf) 0x220 0x19E (.node .leaf 0x222 0x223 (.node .leaf 0x224 0x225 .leaf))) 0x226 0x227
    (.node (.node .leaf 0x228 0x229 (.node .leaf 0x22A 0x22B .leaf)) 0x22C 0x22D (.node .leaf
    0x22E 0x22F (.node .leaf 0x230 0x231 .leaf)))) 0x232 0x233 (.node (.node (.node .leaf 0x23A
    0x2C65 .leaf) 0x23B 0x23C (.node .leaf 0x23D 0x19A (.node .leaf 0x23E 0x2C66 .leaf))) 0x241
    0x242 (.node (.node .leaf 0x243 0x180 (.node .leaf 0x244 0x289 .leaf)) 0x245 0x28C (.node
    .leaf 0x246 0x247 (.node .leaf 0x248 0x249 .leaf))))) 0x24A 0x24B (.node (.node (.node
    (.node .leaf 0x24C 0x24D .leaf) 0x24E 0x24F (.node .leaf 0x370 0x371 (.node .leaf 0x372
    0x373 .leaf))) 0x376 0x377 (.node (.node .leaf 0x37F 0x3F3 (.node .leaf 0x386 0x3AC .leaf))
    0x388 0x3AD (.node .leaf 0x389 0x3AE (.node .leaf 0x38A 0x3AF .leaf)))) 0x38C 0x3CC (.node
    (.node (.node .leaf 0x38E 0x3CD .leaf) 0x38F 0x3CE (.node .leaf 0x391 0x3B1 (.node .leaf
    0x392 0x3B2 .leaf))) 0x393 0x3B3 (.node (.node .leaf 0x394 0x3B4 (.node .leaf 0x395 0x3B5
    .leaf)) 0x396 0x3B6 (.node .leaf 0x397 0x3B7 (.node .leaf 0x398 0x3B8 .leaf)))))) 0x399
    0x3B9 (.node (.node (.node (.node (.node .leaf 0x39A 0x3BA .leaf) 0x39B 0x3BB (.node .leaf
    0x39C 0x3BC (.node .leaf 0x39D 0x3BD .leaf))) 0x39E 0x3BE (.node (.node .leaf 0x39F 0x3BF
    (.node .leaf 0x3A0 0x3C0 .leaf)) 0x3A1 0x3C1 (.node .leaf 0x3A3 0x3C3 (.node .leaf 0x3A4
    0x3C4 .leaf)))) 0x3A5 0x3C5 (.node (.node (.node .leaf 0x3A6 0x3C6 .leaf) 0x3A7 0x3C7 (.node
    .leaf 0x3A8 0x3C8 (.node .leaf 0x3A9 0x3C9 .leaf))) 0x3AA 0x3CA (.node (.node .leaf 0x3AB
    0x3CB (.node .leaf 0x3CF 0x3D7 .leaf)) 0x3D8 0x3D9 (.node .leaf 0x3DA 0x3DB (.node .leaf
    0x3DC 0x3DD .leaf))))) 0x3DE 0x3DF (.node (.node (.node (.node .leaf 0x3E0 0x3E1 .leaf)
    0x3E2 0x3E3 (.node .leaf 0x3E4 0x3E5 (.node .leaf 0x3E6 0x3E7 .leaf))) 0x3E8 0x3E9 (.node
    (.node .leaf 0x3EA 0x3EB (.node .leaf 0x3EC 0x3ED .leaf)) 0x3EE 0x3EF (.node .leaf 0x3F4
    0x3B8 (.node .leaf 0x3F7 0x3F8 .leaf)))) 0x3F9 0x3F2 (.node (.node (.node .leaf 0x3FA 0x3FB
    .leaf) 0x3FD 0x37B (.node .leaf 0x3FE 0x37C (.node .leaf 0x3FF 0x37D .leaf))) 0x400 0x450
    (.node (.node .leaf 0x401 0x451 (.node .leaf 0x402 0x452 .leaf)) 0x403 0x453 (.node .leaf
    0x404 0x454 (.node .leaf 0x405 0x455 .leaf))))))) 0x406 0x456 (.node (.node (.node (.node
    (.node (.node .leaf 0x407 0x457 .leaf) 0x408 0x458 (.node .leaf 0x409 0x459 (.node .leaf
    0x40A 0x45A .leaf))) 0x40B 0x45B (.node (.node .leaf 0x40C 0x45C (.node .leaf 0x40D 0x45D
    .leaf)) 0x40E 0x45E (.node .leaf 0x40F 0x45F (.node .leaf 0x410 0x430 .leaf)))) 0x411 0x431
    (.node (.node (.node .leaf 0x412 0x432 .leaf) 0x413 0x433 (.node .leaf 0x414 0x434 (.node
    .leaf 0x415 0x435 .leaf))) 0x416 0x436 (.node (.node .leaf 0x417 0x437 (.node .leaf 0x418
    0x438 .leaf)) 0x419 0x439 (.node .leaf 0x41A 0x43A (.node .leaf 0x41B 0x43B .leaf))))) 0x41C
    0x43C (.node (.node (.node (.node .leaf 0x41D 0x43D .leaf) 0x41E 0x43E (.node .leaf 0x41F
    0x43F (.node .leaf 0x420 0x440 .leaf))) 0x421 0x441 (.node (.node .leaf 0x422 0x442 (.node
    .leaf 0x423 0x443 .leaf)) 0x424 0x444 (.node .leaf 0x425 0x445 (.node .leaf 0x426 0x446
    .leaf)))) 0x427 0x447 (.node (.node (.node .leaf 0x428 0x448 .leaf) 0x429 0x449 (.node .leaf
    0x42A 0x44A (.node .leaf 0x42B 0x44B .leaf))) 0x42C 0x44C (.node (.node .leaf 0x42D 0x44D
    (.node .leaf 0x42E 0x44E .leaf)) 0x42F 0x44F (.node .leaf 0x460 0x461 (.node .leaf 0x462
    0x463 .leaf)))))) 0x464 0x465 (.node (.node (.node (.node (.node .leaf 0x466 0x467 .leaf)
    0x468 0x469 (.node .leaf 0x46A 0x46B (.node .leaf 0x46C 0x46D .leaf))) 0x46E 0x46F (.node
    (.node .leaf 0x470 0x471 (.node .leaf 0x472 0x473 .leaf)) 0x474 0x475 (.node .leaf 0x476
    0x477 (.node .leaf 0x478 0x479 .leaf)))) 0x47A 0x47B (.node (.node (.node .leaf 0x47C 0x47D
    .leaf) 0x47E 0x47F (.node .leaf 0x480 0x481 (.node .leaf 0x48A 0x48B .leaf))) 0x48C 0x48D
    (.node (.node .leaf 0x48E 0x48F (.node .leaf 0x490 0x491 .leaf)) 0x492 0x493 (.node .leaf
    0x494 0x495 (.node .leaf 0x496 0x497 .leaf))))) 0x498 0x499 (.node (.node (.node (.node
    .leaf 0x49A 0x49B .leaf) 0x49C 0x49D (.node .leaf 0x49E 0x49F (.node .leaf 0x4A0 0x4A1
    .leaf))) 0x4A2 0x4A3 (.node (.node .leaf 0x4A4 0x4A5 (.node .leaf 0x4A6 0x4A7 .leaf)) 0x4A8
    0x4A9 (.node .leaf 0x4AA 0x4AB (.node .leaf 0x4AC 0x4AD .leaf)))) 0x4AE 0x4AF (.node (.node
    (.node .leaf 0x4B0 0x4B1 .leaf) 0x4B2 0x4B3 (.node .leaf 0x4B4 0x4B5 (.node .leaf 0x4B6
    0x4B7 .leaf))) 0x4B8 0x4B9 (.node (.node .leaf 0x4BA 0x4BB (.node .leaf 0x4BC 0x4BD .leaf))
    0x4BE 0x4BF (.node .leaf 0x4C0 0x4CF (.node .leaf 0x4C1 0x4C2 .leaf))))))))) 0x4C3 0x4C4
    (.node (.node (.node (.node (.node (.node (.node (.node .leaf 0x4C5 0x4C6 .leaf) 0x4C7 0x4C8
    (.node .leaf 0x4C9 0x4CA (.node .leaf 0x4CB 0x4CC .leaf))) 0x4CD 0x4CE (.node (.node .leaf
    0x4D0 0x4D1 (.node .leaf 0x4D2 0x4D3 .leaf)) 0x4D4 0x4D5 (.node .leaf 0x4D6 0x4D7 (.node
    .leaf 0x4D8 0x4D9 .leaf)))) 0x4DA 0x4DB (.node (.node (.node .leaf 0x4DC 0x4DD .leaf) 0x4DE
    0x4DF (.node .leaf 0x4E0 0x4E1 (.node .leaf 0x4E2 0x4E3 .leaf))) 0x4E4 0x4E5 (.node (.node
    .leaf 0x4E6 0x4E7 (.node .leaf 0x4E8 0x4E9 .leaf)) 0x4EA 0x4EB (.node .leaf 0x4EC 0x4ED
    (.node .leaf 0x4EE 0x4EF .leaf))))) 0x4F0 0x4F1 (.node (.node (.node (.node .leaf 0x4F2
    0x4F3 .leaf) 0x4F4 0x4F5 (.node .leaf 0x4F6 0x4F7 (.node .leaf 0x4F8 0x4F9 .leaf))) 0x4FA
    0x4FB (.node (.node .leaf 0x4FC 0x4FD (.node .leaf 0x4FE 0x4FF .leaf)) 0x500 0x501 (.node
    .leaf 0x502 0x503 (.node .leaf 0x504 0x505 .leaf)))) 0x506 0x507 (.node (.node (.node .leaf
    0x508 0x509 .leaf) 0x50A 0x50B (.node .leaf 0x50C 0x50D (.node .leaf 0x50E 0x50F .leaf)))
    0x510 0x511 (.node (.node .leaf 0x512 0x513 (.node .leaf 0x514 0x515 .leaf)) 0x516 0x517
    (.node .leaf 0x518 0x519 (.node .leaf 0x51A 0x51B .leaf)))))) 0x51C 0x51D (.node (.node
    (.node (.node (.node .leaf 0x51E 0x51F .leaf) 0x520 0x521 (.node .leaf 0x522 0x523 (.node
    .leaf 0x524 0x525 .leaf))) 0x526 0x527 (.node (.node .leaf 0x528 0x529 (.node .leaf 0x52A
    0x52B .leaf)) 0x52C 0x52D (.node .leaf 0x52E 0x52F (.node .leaf 0x531 0x561 .leaf)))) 0x532
    0x562 (.node (.node (.node .leaf 0x533 0x563 .leaf) 0x534 0x564 (.node .leaf 0x535 0x565
    (.node .leaf 0x536 0x566 .leaf))) 0x537 0x567 (.node (.node .leaf 0x538 0x568 (.node .leaf
    0x539 0x569 .leaf)) 0x53A 0x56A (.node .leaf 0x53B 0x56B (.node .leaf 0x53C 0x56C .leaf)))))
    0x53D 0x56D (.node (.node (.node (.node .leaf 0x53E 0x56E .leaf) 0x53F 0x56F (.node .leaf
    0x540 0x570 (.node .leaf 0x541 0x571 .leaf))) 0x542 0x572 (.node (.node .leaf 0x543 0x573
    (.node .leaf 0x544 0x574 .leaf)) 0x545 0x575 (.node .leaf 0x546 0x576 (.node .leaf 0x547
    0x577 .leaf)))) 0x548 0x578 (.node (.node (.node .leaf 0x549 0x579 .leaf) 0x54A 0x57A (.node
    .leaf 0x54B 0x57B (.node .leaf 0x54C 0x57C .leaf))) 0x54D 0x57D (.node (.node .leaf 0x54E
    0x57E (.node .leaf 0x54F 0x57F .leaf)) 0x550 0x580 (.node .leaf 0x551 0x581 (.node .leaf
    0x552 0x582 .leaf))))))) 0x553 0x583 (.node (.node (.node (.node (.node (.node .leaf 0x554
    0x584 .leaf) 0x555 0x585 (.node .leaf 0x556 0x586 (.node .leaf 0x10A0 0x2D00 .leaf))) 0x10A1
    0x2D01 (.node (.node .leaf 0x10A2 0x2D02 (.node .leaf 0x10A3 0x2D03 .leaf)) 0x10A4 0x2D04
    (.node .leaf 0x10A5 0x2D05 (.node .leaf 0x10A6 0x2D06 .leaf)))) 0x10A7 0x2D07 (.node (.node
    (.node .leaf 0x10A8 0x2D08 .leaf) 0x10A9 0x2D09 (.node .leaf 0x10AA 0x2D0A (.node .leaf
    0x10AB 0x2D0B .leaf))) 0x10AC 0x2D0C (.node (.node .leaf 0x10AD 0x2D0D (.node .leaf 0x10AE
    0x2D0E .leaf)) 0x10AF 0x2D0F (.node .leaf 0x10B0 0x2D10 (.node .leaf 0x10B1 0x2D11
    .leaf))))) 0x10B2 0x2D12 (.node (.node (.node (.node .leaf 0x10B3 0x2D13 .leaf) 0x10B4
    0x2D14 (.node .leaf 0x10B5 0x2D15 (.node .leaf 0x10B6 0x2D16 .leaf))) 0x10B7 0x2D17 (.node
    (.node .leaf 0x10B8 0x2D18 (.node .leaf 0x10B9 0x2D19 .leaf)) 0x10BA 0x2D1A (.node .leaf
    0x10BB 0x2D1B (.node .leaf 0x10BC 0x2D1C .leaf)))) 0x10BD 0x2D1D (.node (.node (.node .leaf
    0x10BE 0x2D1E .leaf) 0x10BF 0x2D1F (.node .leaf 0x10C0 0x2D20 (.node .leaf 0x10C1 0x2D21
    .leaf))) 0x10C2 0x2D22 (.node (.node .leaf 0x10C3 0x2D23 (.node .leaf 0x10C4 0x2D24 .leaf))
    0x10C5 0x2D25 (.node .leaf 0x10C7 0x2D27 (.node .leaf 0x10CD 0x2D2D .leaf)))))) 0x13A0
    0xAB70 (.node (.node (.node (.node (.node .leaf 0x13A1 0xAB71 .leaf) 0x13A2 0xAB72 (.node
    .leaf 0x13A3 0xAB73 (.node .leaf 0x13A4 0xAB74 .leaf))) 0x13A5 0xAB75 (.node (.node .leaf
    0x13A6 0xAB76 (.node .leaf 0x13A7 0xAB77 .leaf)) 0x13A8 0xAB78 (.node .leaf 0x13A9 0xAB79
    (.node .leaf 0x13AA 0xAB7A .leaf)))) 0x13AB 0xAB7B (.node (.node (.node .leaf 0x13AC 0xAB7C
    .leaf) 0x13AD 0xAB7D (.node .leaf 0x13AE 0xAB7E (.node .leaf 0x13AF 0xAB7F .leaf))) 0x13B0
    0xAB80 (.node (.node .leaf 0x13B1 0xAB81 (.node .leaf 0x13B2 0xAB82 .leaf)) 0x13B3 0xAB83
    (.node .leaf 0x13B4 0xAB84 (.node .leaf 0x13B5 0xAB85 .leaf))))) 0x13B6 0xAB86 (.node (.node
    (.node (.node .leaf 0x13B7 0xAB87 .leaf) 0x13B8 0xAB88 (.node .leaf 0x13B9 0xAB89 (.node
    .leaf 0x13BA 0xAB8A .leaf))) 0x13BB 0xAB8B (.node (.node .leaf 0x13BC 0xAB8C (.node .leaf
    0x13BD 0xAB8D .leaf)) 0x13BE 0xAB8E (.node .leaf 0x13BF 0xAB8F (.node .leaf 0x13C0 0xAB90
    .leaf)))) 0x13C1 0xAB91 (.node (.node (.node .leaf 0x13C2 0xAB92 .leaf) 0x13C3 0xAB93 (.node
    .leaf 0x13C4 0xAB94 (.node .leaf 0x13C5 0xAB95 .leaf))) 0x13C6 0xAB96 (.node (.node .leaf
    0x13C7 0xAB97 (.node .leaf 0x13C8 0xAB98 .leaf)) 0x13C9 0xAB99 (.node .leaf 0x13CA 0xAB9A
    (.node .leaf 0x13CB 0xAB9B .leaf)))))))) 0x13CC 0xAB9C (.node (.node (.node (.node (.node
    (.node (.node .leaf 0x13CD 0xAB9D .leaf) 0x13CE 0xAB9E (.node .leaf 0x13CF 0xAB9F (.node
    .leaf 0x13D0 0xABA0 .leaf))) 0x13D1 0xABA1 (.node (.node .leaf 0x13D2 0xABA2 (.node .leaf
    0x13D3 0xABA3 .leaf)) 0x13D4 0xABA4 (.node .leaf 0x13D5 0xABA5 (.node .leaf 0x13D6 0xABA6
    .leaf)))) 0x13D7 0xABA7 (.node (.node (.node .leaf 0x13D8 0xABA8 .leaf) 0x13D9 0xABA9 (.node
    .leaf 0x13DA 0xABAA (.node .leaf 0x13DB 0xABAB .leaf))) 0x13DC 0xABAC (.node (.node .leaf
    0x13DD 0xABAD (.node .leaf 0x13DE 0xABAE .leaf)) 0x13DF 0xABAF (.node .leaf 0x13E0 0xABB0
    (.node .leaf 0x13E1 0xABB1 .leaf))))) 0x13E2 0xABB2 (.node (.node (.node (.node .leaf 0x13E3
    0xABB3 .leaf) 0x13E4 0xABB4 (.node .leaf 0x13E5 0xABB5 (.node .leaf 0x13E6 0xABB6 .leaf)))
    0x13E7 0xABB7 (.node (.node .leaf 0x13E8 0xABB8 (.node .leaf 0x13E9 0xABB9 .leaf)) 0x13EA
    0xABBA (.node .leaf 0x13EB 0xABBB (.node .leaf 0x13EC 0xABBC .leaf)))) 0x13ED 0xABBD (.node
    (.node (.node .leaf 0x13EE 0xABBE .leaf) 0x13EF 0xABBF (.node .leaf 0x13F0 0x13F8 (.node
    .leaf 0x13F1 0x13F9 .leaf))) 0x13F2 0x13FA (.node (.node .leaf 0x13F3 0x13FB (.node .leaf
    0x13F4 0x13FC .leaf)) 0x13F5 0x13FD (.node .leaf 0x1C90 0x10D0 (.node .leaf 0x1C91 0x10D1
    .leaf)))))) 0x1C92 0x10D2 (.node (.node (.node (.node (.node .leaf 0x1C93 0x10D3 .leaf)
    0x1C94 0x10D4 (.node .leaf 0x1C95 0x10D5 (.node .leaf 0x1C96 0x10D6 .leaf))) 0x1C97 0x10D7
    (.node (.node .leaf 0x1C98 0x10D8 (.node .leaf 0x1C99 0x10D9 .leaf)) 0x1C9A 0x10DA (.node
    .leaf 0x1C9B 0x10DB (.node .leaf 0x1C9C 0x10DC .leaf)))) 0x1C9D 0x10DD (.node (.node (.node
    .leaf 0x1C9E 0x10DE .leaf) 0x1C9F 0x10DF (.node .leaf 0x1CA0 0x10E0 (.node .leaf 0x1CA1
    0x10E1 .leaf))) 0x1CA2 0x10E2 (.node (.node .leaf 0x1CA3 0x10E3 (.node .leaf 0x1CA4 0x10E4
    .leaf)) 0x1CA5 0x10E5 (.node .leaf 0x1CA6 0x10E6 (.node .leaf 0x1CA7 0x10E7 .leaf)))))
    0x1CA8 0x10E8 (.node (.node (.node (.node .leaf 0x1CA9 0x10E9 .leaf) 0x1CAA 0x10EA (.node
    .leaf 0x1CAB 0x10EB (.node .leaf 0x1CAC 0x10EC .leaf))) 0x1CAD 0x10ED (.node (.node .leaf
    0x1CAE 0x10EE (.node .leaf 0x1CAF 0x10EF .leaf)) 0x1CB0 0x10F0 (.node .leaf 0x1CB1 0x10F1
    (.node .leaf 0x1CB2 0x10F2 .leaf)))) 0x1CB3 0x10F3 (.node (.node (.node .leaf 0x1CB4 0x10F4
    .leaf) 0x1CB5 0x10F5 (.node .leaf 0x1CB6 0x10F6 (.node .leaf 0x1CB7 0x10F7 .leaf))) 0x1CB8
    0x10F8 (.node (.node .leaf 0x1CB9 0x10F9 (.node .leaf 0x1CBA 0x10FA .leaf)) 0x1CBD 0x10FD
    (.node .leaf 0x1CBE 0x10FE (.node .leaf 0x1CBF 0x10FF .leaf))))))) 0x1E00 0x1E01 (.node
    (.node (.node (.node (.node (.node .leaf 0x1E02 0x1E03 .leaf) 0x1E04 0x1E05 (.node .leaf
    0x1E06 0x1E07 (.node .leaf 0x1E08 0x1E09 .leaf))) 0x1E0A 0x1E0B (.node (.node .leaf 0x1E0C
    0x1E0D (.node .leaf 0x1E0E 0x1E0F .leaf)) 0x1E10 0x1E11 (.node .leaf 0x1E12 0x1E13 (.node
    .leaf 0x1E14 0x1E15 .leaf)))) 0x1E16 0x1E17 (.node (.node (.node .leaf 0x1E18 0x1E19 .leaf)
    0x1E1A 0x1E1B (.node .leaf 0x1E1C 0x1E1D (.node .leaf 0x1E1E 0x1E1F .leaf))) 0x1E20 0x1E21
    (.node (.node .leaf 0x1E22 0x1E23 (.node .leaf 0x1E24 0x1E25 .leaf)) 0x1E26 0x1E27 (.node
    .leaf 0x1E28 0x1E29 (.node .leaf 0x1E2A 0x1E2B .leaf))))) 0x1E2C 0x1E2D (.node (.node (.node
    (.node .leaf 0x1E2E 0x1E2F .leaf) 0x1E30 0x1E31 (.node .leaf 0x1E32 0x1E33 (.node .leaf
    0x1E34 0x1E35 .leaf))) 0x1E36 0x1E37 (.node (.node .leaf 0x1E38 0x1E39 (.node .leaf 0x1E3A
    0x1E3B .leaf)) 0x1E3C 0x1E3D (.node .leaf 0x1E3E 0x1E3F (.node .leaf 0x1E40 0x1E41 .leaf))))
    0x1E42 0x1E43 (.node (.node (.node .leaf 0x1E44 0x1E45 .leaf) 0x1E46 0x1E47 (.node .leaf
    0x1E48 0x1E49 (.node .leaf 0x1E4A 0x1E4B .leaf))) 0x1E4C 0x1E4D (.node (.node .leaf 0x1E4E
    0x1E4F (.node .leaf 0x1E50 0x1E51 .leaf)) 0x1E52 0x1E53 (.node .leaf 0x1E54 0x1E55 (.node
    .leaf 0x1E56 0x1E57 .leaf)))))) 0x1E58 0x1E59 (.node (.node (.node (.node (.node .leaf
    0x1E5A 0x1E5B .leaf) 0x1E5C 0x1E5D (.node .leaf 0x1E5E 0x1E5F (.node .leaf 0x1E60 0x1E61
    .leaf))) 0x1E62 0x1E63 (.node (.node .leaf 0x1E64 0x1E65 (.node .leaf 0x1E66 0x1E67 .leaf))
    0x1E68 0x1E69 (.node .leaf 0x1E6A 0x1E6B (.node .leaf 0x1E6C 0x1E6D .leaf)))) 0x1E6E 0x1E6F
    (.node (.node (.node .leaf 0x1E70 0x1E71 .leaf) 0x1E72 0x1E73 (.node .leaf 0x1E74 0x1E75
    (.node .leaf 0x1E76 0x1E77 .leaf))) 0x1E78 0x1E79 (.node (.node .leaf 0x1E7A 0x1E7B (.node
    .leaf 0x1E7C 0x1E7D .leaf)) 0x1E7E 0x1E7F (.node .leaf 0x1E80 0x1E81 (.node .leaf 0x1E82
    0x1E83 .leaf))))) 0x1E84 0x1E85 (.node (.node (.node (.node .leaf 0x1E86 0x1E87 .leaf)
    0x1E88 0x1E89 (.node .leaf 0x1E8A 0x1E8B (.node .leaf 0x1E8C 0x1E8D .leaf))) 0x1E8E 0x1E8F
    (.node (.node .leaf 0x1E90 0x1E91 (.node .leaf 0x1E92 0x1E93 .leaf)) 0x1E94 0x1E95 (.node
    .leaf 0x1E9E 0xDF (.node .leaf 0x1EA0 0x1EA1 .leaf)))) 0x1EA2 0x1EA3 (.node (.node (.node
    .leaf 0x1EA4 0x1EA5 .leaf) 0x1EA6 0x1EA7 (.node .leaf 0x1EA8 0x1EA9 (.node .leaf 0x1EAA
    0x1EAB .leaf))) 0x1EAC 0x1EAD (.node (.node .leaf 0x1EAE 0x1EAF (.node .leaf 0x1EB0 0x1EB1
    .leaf)) 0x1EB2 0x1EB3 (.node .leaf 0x1EB4 0x1EB5 (.node .leaf 0x1EB6 0x1EB7 .leaf))))))))))
    0x1EB8 0x1EB9 (.node (.node (.node (.node (.node (.node (.node (.node (.node .leaf 0x1EBA
    0x1EBB .leaf) 0x1EBC 0x1EBD (.node .leaf 0x1EBE 0x1EBF (.node .leaf 0x1EC0 0x1EC1 .leaf)))
    0x1EC2 0x1EC3 (.node (.node .leaf 0x1EC4 0x1EC5 (.node .leaf 0x1EC6 0x1EC7 .leaf)) 0x1EC8
    0x1EC9 (.node .leaf 0x1ECA 0x1ECB (.node .leaf 0x1ECC 0x1ECD .leaf)))) 0x1ECE 0x1ECF (.node
    (.node (.node .leaf 0x1ED0 0x1ED1 .leaf) 0x1ED2 0x1ED3 (.node .leaf 0x1ED4 0x1ED5 (.node
    .leaf 0x1ED6 0x1ED7 .leaf))) 0x1ED8 0x1ED9 (.node (.node .leaf 0x1EDA 0x1EDB (.node .leaf
    0x1EDC 0x1EDD .leaf)) 0x1EDE 0x1EDF (.node .leaf 0x1EE0 0x1EE1 (.node .leaf 0x1EE2 0x1EE3
    .leaf))))) 0x1EE4 0x1EE5 (.node (.node (.node (.node .leaf 0x1EE6 0x1EE7 .leaf) 0x1EE8
    0x1EE9 (.node .leaf 0x1EEA 0x1EEB (.node .leaf 0x1EEC 0x1EED .leaf))) 0x1EEE 0x1EEF (.node
    (.node .leaf 0x1EF0 0x1EF1 (.node .leaf 0x1EF2 0x1EF3 .leaf)) 0x1EF4 0x1EF5 (.node .leaf
    0x1EF6 0x1EF7 (.node .leaf 0x1EF8 0x1EF9 .leaf)))) 0x1EFA 0x1EFB (.node (.node (.node .leaf
    0x1EFC 0x1EFD .leaf) 0x1EFE 0x1EFF (.node .leaf 0x1F08 0x1F00 (.node .leaf 0x1F09 0x1F01
    .leaf))) 0x1F0A 0x1F02 (.node (.node .leaf 0x1F0B 0x1F03 (.node .leaf 0x1F0C 0x1F04 .leaf))
    0x1F0D 0x1F05 (.node .leaf 0x1F0E 0x1F06 (.node .leaf 0x1F0F 0x1F07 .leaf)))))) 0x1F18
    0x1F10 (.node (.node (.node (.node (.node .leaf 0x1F19 0x1F11 .leaf) 0x1F1A 0x1F12 (.node
    .leaf 0x1F1B 0x1F13 (.node .leaf 0x1F1C 0x1F14 .leaf))) 0x1F1D 0x1F15 (.node (.node .leaf
    0x1F28 0x1F20 (.node .leaf 0x1F29 0x1F21 .leaf)) 0x1F2A 0x1F22 (.node .leaf 0x1F2B 0x1F23
    (.node .leaf 0x1F2C 0x1F24 .leaf)))) 0x1F2D 0x1F25 (.node (.node (.node .leaf 0x1F2E 0x1F26
    .leaf) 0x1F2F 0x1F27 (.node .leaf 0x1F38 0x1F30 (.node .leaf 0x1F39 0x1F31 .leaf))) 0x1F3A
    0x1F32 (.node (.node .leaf 0x1F3B 0x1F33 (.node .leaf 0x1F3C 0x1F34 .leaf)) 0x1F3D 0x1F35
    (.node .leaf 0x1F3E 0x1F36 (.node .leaf 0x1F3F 0x1F37 .leaf))))) 0x1F48 0x1F40 (.node (.node
    (.node (.node .leaf 0x1F49 0x1F41 .leaf) 0x1F4A 0x1F42 (.node .leaf 0x1F4B 0x1F43 (.node
    .leaf 0x1F4C 0x1F44 .leaf))) 0x1F4D 0x1F45 (.node (.node .leaf 0x1F59 0x1F51 (.node .leaf
    0x1F5B 0x1F53 .leaf)) 0x1F5D 0x1F55 (.node .leaf 0x1F5F 0x1F57 (.node .leaf 0x1F68 0x1F60
    .leaf)))) 0x1F69 0x1F61 (.node (.node (.node .leaf 0x1F6A 0x1F62 .leaf) 0x1F6B 0x1F63 (.node
    .leaf 0x1F6C 0x1F64 (.node .leaf 0x1F6D 0x1F65 .leaf))) 0x1F6E 0x1F66 (.node (.node .leaf
    0x1F6F 0x1F67 (.node .leaf 0x1F88 0x1F80 .leaf)) 0x1F89 0x1F81 (.node .leaf 0x1F8A 0x1F82
    (.node .leaf 0x1F8B 0x1F83 .leaf))))))) 0x1F8C 0x1F84 (.node (.node (.node (.node (.node
    (.node .leaf 0x1F8D 0x1F85 .leaf) 0x1F8E 0x1F86 (.node .leaf 0x1F8F 0x1F87 (.node .leaf
    0x1F98 0x1F90 .leaf))) 0x1F99 0x1F91 (.node (.node .leaf 0x1F9A 0x1F92 (.node .leaf 0x1F9B
    0x1F93 .leaf)) 0x1F9C 0x1F94 (.node .leaf 0x1F9D 0x1F95 (.node .leaf 0x1F9E 0x1F96 .leaf))))
    0x1F9F 0x1F97 (.node (.node (.node .leaf 0x1FA8 0x1FA0 .leaf) 0x1FA9 0x1FA1 (.node .leaf
    0x1FAA 0x1FA2 (.node .leaf 0x1FAB 0x1FA3 .leaf))) 0x1FAC 0x1FA4 (.node (.node .leaf 0x1FAD
    0x1FA5 (.node .leaf 0x1FAE 0x1FA6 .leaf)) 0x1FAF 0x1FA7 (.node .leaf 0x1FB8 0x1FB0 (.node
    .leaf 0x1FB9 0x1FB1 .leaf))))) 0x1FBA 0x1F70 (.node (.node (.node (.node .leaf 0x1FBB 0x1F71
    .leaf) 0x1FBC 0x1FB3 (.node .leaf 0x1FC8 0x1F72 (.node .leaf 0x1FC9 0x1F73 .leaf))) 0x1FCA
    0x1F74 (.node (.node .leaf 0x1FCB 0x1F75 (.node .leaf 0x1FCC 0x1FC3 .leaf)) 0x1FD8 0x1FD0
    (.node .leaf 0x1FD9 0x1FD1 (.node .leaf 0x1FDA 0x1F76 .leaf)))) 0x1FDB 0x1F77 (.node (.node
    (.node .leaf 0x1FE8 0x1FE0 .leaf) 0x1FE9 0x1FE1 (.node .leaf 0x1FEA 0x1F7A (.node .leaf
    0x1FEB 0x1F7B .leaf))) 0x1FEC 0x1FE5 (.node (.node .leaf 0x1FF8 0x1F78 (.node .leaf 0x1FF9
    0x1F79 .leaf)) 0x1FFA 0x1F7C (.node .leaf 0x1FFB 0x1F7D (.node .leaf 0x1FFC 0x1FF3
    .leaf)))))) 0x2126 0x3C9 (.node (.node (.node (.node (.node .leaf 0x212A 0x6B .leaf) 0x212B
    0xE5 (.node .leaf 0x2132 0x214E (.node .leaf 0x2160 0x2170 .leaf))) 0x2161 0x2171 (.node
    (.node .leaf 0x2162 0x2172 (.node .leaf 0x2163 0x2173 .leaf)) 0x2164 0x2174 (.node .leaf
    0x2165 0x2175 (.node .leaf 0x2166 0x2176 .leaf)))) 0x2167 0x2177 (.node (.node (.node .leaf
    0x2168 0x2178 .leaf) 0x2169 0x2179 (.node .leaf 0x216A 0x217A (.node .leaf 0x216B 0x217B
    .leaf))) 0x216C 0x217C (.node (.node .leaf 0x216D 0x217D (.node .leaf 0x216E 0x217E .leaf))
    0x216F 0x217F (.node .leaf 0x2183 0x2184 (.node .leaf 0x24B6 0x24D0 .leaf))))) 0x24B7 0x24D1
    (.node (.node (.node (.node .leaf 0x24B8 0x24D2 .leaf) 0x24B9 0x24D3 (.node .leaf 0x24BA
    0x24D4 (.node .leaf 0x24BB 0x24D5 .leaf))) 0x24BC 0x24D6 (.node (.node .leaf 0x24BD 0x24D7
    (.node .leaf 0x24BE 0x24D8 .leaf)) 0x24BF 0x24D9 (.node .leaf 0x24C0 0x24DA (.node .leaf
    0x24C1 0x24DB .leaf)))) 0x24C2 0x24DC (.node (.node (.node .leaf 0x24C3 0x24DD .leaf) 0x24C4
    0x24DE (.node .leaf 0x24C5 0x24DF (.node .leaf 0x24C6 0x24E0 .leaf))) 0x24C7 0x24E1 (.node
    (.node .leaf 0x24C8 0x24E2 (.node .leaf 0x24C9 0x24E3 .leaf)) 0x24CA 0x24E4 (.node .leaf
    0x24CB 0x24E5 (.node .leaf 0x24CC 0x24E6 .leaf)))))))) 0x24CD 0x24E7 (.node (.node (.node
    (.node (.node (.node (.node .leaf 0x24CE 0x24E8 .leaf) 0x24CF 0x24E9 (.node .leaf 0x2C00
    0x2C30 (.node .leaf 0x2C01 0x2C31 .leaf))) 0x2C02 0x2C32 (.node (.node .leaf 0x2C03 0x2C33
    (.node .leaf 0x2C04 0x2C34 .leaf)) 0x2C05 0x2C35 (.node .leaf 0x2C06 0x2C36 (.node .leaf
    0x2C07 0x2C37 .leaf)))) 0x2C08 0x2C38 (.node (.node (.node .leaf 0x2C09 0x2C39 .leaf) 0x2C0A
    0x2C3A (.node .leaf 0x2C0B 0x2C3B (.node .leaf 0x2C0C 0x2C3C .leaf))) 0x2C0D 0x2C3D (.node
    (.node .leaf 0x2C0E 0x2C3E (.node .leaf 0x2C0F 0x2C3F .leaf)) 0x2C10 0x2C40 (.node .leaf
    0x2C11 0x2C41 (.node .leaf 0x2C12 0x2C42 .leaf))))) 0x2C13 0x2C43 (.node (.node (.node
    (.node .leaf 0x2C14 0x2C44 .leaf) 0x2C15 0x2C45 (.node .leaf 0x2C16 0x2C46 (.node .leaf
    0x2C17 0x2C47 .leaf))) 0x2C18 0x2C48 (.node (.node .leaf 0x2C19 0x2C49 (.node .leaf 0x2C1A
    0x2C4A .leaf)) 0x2C1B 0x2C4B (.node .leaf 0x2C1C 0x2C4C (.node .leaf 0x2C1D 0x2C4D .leaf))))
    0x2C1E 0x2C4E (.node (.node (.node .leaf 0x2C1F 0x2C4F .leaf) 0x2C20 0x2C50 (.node .leaf
    0x2C21 0x2C51 (.node .leaf 0x2C22 0x2C52 .leaf))) 0x2C23 0x2C53 (.node (.node .leaf 0x2C24
    0x2C54 (.node .leaf 0x2C25 0x2C55 .leaf)) 0x2C26 0x2C56 (.node .leaf 0x2C27 0x2C57 (.node
    .leaf 0x2C28 0x2C58 .leaf)))))) 0x2C29 0x2C59 (.node (.node (.node (.node (.node .leaf
    0x2C2A 0x2C5A .leaf) 0x2C2B 0x2C5B (.node .leaf 0x2C2C 0x2C5C (.node .leaf 0x2C2D 0x2C5D
    .leaf))) 0x2C2E 0x2C5E (.node (.node .leaf 0x2C2F 0x2C5F (.node .leaf 0x2C60 0x2C61 .leaf))
    0x2C62 0x26B (.node .leaf 0x2C63 0x1D7D (.node .leaf 0x2C64 0x27D .leaf)))) 0x2C67 0x2C68
    (.node (.node (.node .leaf 0x2C69 0x2C6A .leaf) 0x2C6B 0x2C6C (.node .leaf 0x2C6D 0x251
    (.node .leaf 0x2C6E 0x271 .leaf))) 0x2C6F 0x250 (.node (.node .leaf 0x2C70 0x252 (.node
    .leaf 0x2C72 0x2C73 .leaf)) 0x2C75 0x2C76 (.node .leaf 0x2C7E 0x23F (.node .leaf 0x2C7F
    0x240 .leaf))))) 0x2C80 0x2C81 (.node (.node (.node (.node .leaf 0x2C82 0x2C83 .leaf) 0x2C84
    0x2C85 (.node .leaf 0x2C86 0x2C87 (.node .leaf 0x2C88 0x2C89 .leaf))) 0x2C8A 0x2C8B (.node
    (.node .leaf 0x2C8C 0x2C8D (.node .leaf 0x2C8E 0x2C8F .leaf)) 0x2C90 0x2C91 (.node .leaf
    0x2C92 0x2C93 (.node .leaf 0x2C94 0x2C95 .leaf)))) 0x2C96 0x2C97 (.node (.node (.node .leaf
    0x2C98 0x2C99 .leaf) 0x2C9A 0x2C9B (.node .leaf 0x2C9C 0x2C9D (.node .leaf 0x2C9E 0x2C9F
    .leaf))) 0x2CA0 0x2CA1 (.node (.node .leaf 0x2CA2 0x2CA3 (.node .leaf 0x2CA4 0x2CA5 .leaf))
    0x2CA6 0x2CA7 (.node .leaf 0x2CA8 0x2CA9 (.node .leaf 0x2CAA 0x2CAB .leaf))))))) 0x2CAC
    0x2CAD (.node (.node (.node (.node (.node (.node .leaf 0x2CAE 0x2CAF .leaf) 0x2CB0 0x2CB1
    (.node .leaf 0x2CB2 0x2CB3 (.node .leaf 0x2CB4 0x2CB5 .leaf))) 0x2CB6 0x2CB7 (.node (.node
    .leaf 0x2CB8 0x2CB9 (.node .leaf 0x2CBA 0x2CBB .leaf)) 0x2CBC 0x2CBD (.node .leaf 0x2CBE
    0x2CBF (.node .leaf 0x2CC0 0x2CC1 .leaf)))) 0x2CC2 0x2CC3 (.node (.node (.node .leaf 0x2CC4
    0x2CC5 .leaf) 0x2CC6 0x2CC7 (.node .leaf 0x2CC8 0x2CC9 (.node .leaf 0x2CCA 0x2CCB .leaf)))
    0x2CCC 0x2CCD (.node (.node .leaf 0x2CCE 0x2CCF (.node .leaf 0x2CD0 0x2CD1 .leaf)) 0x2CD2
    0x2CD3 (.node .leaf 0x2CD4 0x2CD5 (.node .leaf 0x2CD6 0x2CD7 .leaf))))) 0x2CD8 0x2CD9 (.node
    (.node (.node (.node .leaf 0x2CDA 0x2CDB .leaf) 0x2CDC 0x2CDD (.node .leaf 0x2CDE 0x2CDF
    (.node .leaf 0x2CE0 0x2CE1 .leaf))) 0x2CE2 0x2CE3 (.node (.node .leaf 0x2CEB 0x2CEC (.node
    .leaf 0x2CED 0x2CEE .leaf)) 0x2CF2 0x2CF3 (.node .leaf 0xA640 0xA641 (.node .leaf 0xA642
    0xA643 .leaf)))) 0xA644 0xA645 (.node (.node (.node .leaf 0xA646 0xA647 .leaf) 0xA648 0xA649
    (.node .leaf 0xA64A 0xA64B (.node .leaf 0xA64C 0xA64D .leaf))) 0xA64E 0xA64F (.node (.node
    .leaf 0xA650 0xA651 (.node .leaf 0xA652 0xA653 .leaf)) 0xA654 0xA655 (.node .leaf 0xA656
    0xA657 (.node .leaf 0xA658 0xA659 .leaf)))))) 0xA65A 0xA65B (.node (.node (.node (.node
    (.node .leaf 0xA65C 0xA65D .leaf) 0xA65E 0xA65F (.node .leaf 0xA660 0xA661 (.node .leaf
    0xA662 0xA663 .leaf))) 0xA664 0xA665 (.node (.node .leaf 0xA666 0xA667 (.node .leaf 0xA668
    0xA669 .leaf)) 0xA66A 0xA66B (.node .leaf 0xA66C 0xA66D (.node .leaf 0xA680 0xA681 .leaf))))
    0xA682 0xA683 (.node (.node (.node .leaf 0xA684 0xA685 .leaf) 0xA686 0xA687 (.node .leaf
    0xA688 0xA689 (.node .leaf 0xA68A 0xA68B .leaf))) 0xA68C 0xA68D (.node (.node .leaf 0xA68E
    0xA68F (.node .leaf 0xA690 0xA691 .leaf)) 0xA692 0xA693 (.node .leaf 0xA694 0xA695 (.node
    .leaf 0xA696 0xA697 .leaf))))) 0xA698 0xA699 (.node (.node (.node (.node .leaf 0xA69A 0xA69B
    .leaf) 0xA722 0xA723 (.node .leaf 0xA724 0xA725 (.node .leaf 0xA726 0xA727 .leaf))) 0xA728
    0xA729 (.node (.node .leaf 0xA72A 0xA72B (.node .leaf 0xA72C 0xA72D .leaf)) 0xA72E 0xA72F
    (.node .leaf 0xA732 0xA733 (.node .leaf 0xA734 0xA735 .leaf)))) 0xA736 0xA737 (.node (.node
    (.node .leaf 0xA738 0xA739 .leaf) 0xA73A 0xA73B (.node .leaf 0xA73C 0xA73D (.node .leaf
    0xA73E 0xA73F .leaf))) 0xA740 0xA741 (.node (.node .leaf 0xA742 0xA743 (.node .leaf 0xA744
    0xA745 .leaf)) 0xA746 0xA747 (.node .leaf 0xA748 0xA749 (.node .leaf 0xA74A 0xA74B
    .leaf))))))))) 0xA74C 0xA74D (.node (.node (.node (.node (.node (.node (.node (.node .leaf
    0xA74E 0xA74F .leaf) 0xA750 0xA751 (.node .leaf 0xA752 0xA753 (.node .leaf 0xA754 0xA755
    .leaf))) 0xA756 0xA757 (.node (.node .leaf 0xA758 0xA759 (.node .leaf 0xA75A 0xA75B .leaf))
    0xA75C 0xA75D (.node .leaf 0xA75E 0xA75F (.node .leaf 0xA760 0xA761 .leaf)))) 0xA762 0xA763
    (.node (.node (.node .leaf 0xA764 0xA765 .leaf) 0xA766 0xA767 (.node .leaf 0xA768 0xA769
    (.node .leaf 0xA76A 0xA76B .leaf))) 0xA76C 0xA76D (.node (.node .leaf 0xA76E 0xA76F (.node
    .leaf 0xA779 0xA77A .leaf)) 0xA77B 0xA77C (.node .leaf 0xA77D 0x1D79 (.node .leaf 0xA77E
    0xA77F .leaf))))) 0xA780 0xA781 (.node (.node (.node (.node .leaf 0xA782 0xA783 .leaf)
    0xA784 0xA785 (.node .leaf 0xA786 0xA787 (.node .leaf 0xA78B 0xA78C .leaf))) 0xA78D 0x265
    (.node (.node .leaf 0xA790 0xA791 (.node .leaf 0xA792 0xA793 .leaf)) 0xA796 0xA797 (.node
    .leaf 0xA798 0xA799 (.node .leaf 0xA79A 0xA79B .leaf)))) 0xA79C 0xA79D (.node (.node (.node
    .leaf 0xA79E 0xA79F .leaf) 0xA7A0 0xA7A1 (.node .leaf 0xA7A2 0xA7A3 (.node .leaf 0xA7A4
    0xA7A5 .leaf))) 0xA7A6 0xA7A7 (.node (.node .leaf 0xA7A8 0xA7A9 (.node .leaf 0xA7AA 0x266
    .leaf)) 0xA7AB 0x25C (.node .leaf 0xA7AC 0x261 (.node .leaf 0xA7AD 0x26C .leaf)))))) 0xA7AE
    0x26A (.node (.node (.node (.node (.node .leaf 0xA7B0 0x29E .leaf) 0xA7B1 0x287 (.node .leaf
    0xA7B2 0x29D (.node .leaf 0xA7B3 0xAB53 .leaf))) 0xA7B4 0xA7B5 (.node (.node .leaf 0xA7B6
    0xA7B7 (.node .leaf 0xA7B8 0xA7B9 .leaf)) 0xA7BA 0xA7BB (.node .leaf 0xA7BC 0xA7BD (.node
    .leaf 0xA7BE 0xA7BF .leaf)))) 0xA7C0 0xA7C1 (.node (.node (.node .leaf 0xA7C2 0xA7C3 .leaf)
    0xA7C4 0xA794 (.node .leaf 0xA7C5 0x282 (.node .leaf 0xA7C6 0x1D8E .leaf))) 0xA7C7 0xA7C8
    (.node (.node .leaf 0xA7C9 0xA7CA (.node .leaf 0xA7D0 0xA7D1 .leaf)) 0xA7D6 0xA7D7 (.node
    .leaf 0xA7D8 0xA7D9 (.node .leaf 0xA7F5 0xA7F6 .leaf))))) 0xFF21 0xFF41 (.node (.node (.node
    (.node .leaf 0xFF22 0xFF42 .leaf) 0xFF23 0xFF43 (.node .leaf 0xFF24 0xFF44 (.node .leaf
    0xFF25 0xFF45 .leaf))) 0xFF26 0xFF46 (.node (.node .leaf 0xFF27 0xFF47 (.node .leaf 0xFF28
    0xFF48 .leaf)) 0xFF29 0xFF49 (.node .leaf 0xFF2A 0xFF4A (.node .leaf 0xFF2B 0xFF4B .leaf))))
    0xFF2C 0xFF4C (.node (.node (.node .leaf 0xFF2D 0xFF4D .leaf) 0xFF2E 0xFF4E (.node .leaf
    0xFF2F 0xFF4F (.node .leaf 0xFF30 0xFF50 .leaf))) 0xFF31 0xFF51 (.node (.node .leaf 0xFF32
    0xFF52 (.node .leaf 0xFF33 0xFF53 .leaf)) 0xFF34 0xFF54 (.node .leaf 0xFF35 0xFF55 (.node
    .leaf 0xFF36 0xFF56 .leaf))))))) 0xFF37 0xFF57 (.node (.node (.node (.node (.node (.node
    .leaf 0xFF38 0xFF58 .leaf) 0xFF39 0xFF59 (.node .leaf 0xFF3A 0xFF5A (.node .leaf 0x10400
    0x10428 .leaf))) 0x10401 0x10429 (.node (.node .leaf 0x10402 0x1042A (.node .leaf 0x10403
    0x1042B .leaf)) 0x10404 0x1042C (.node .leaf 0x10405 0x1042D (.node .leaf 0x10406 0x1042E
    .leaf)))) 0x10407 0x1042F (.node (.node (.node .leaf 0x10408 0x10430 .leaf) 0x10409 0x10431
    (.node .leaf 0x1040A 0x10432 (.node .leaf 0x1040B 0x10433 .leaf))) 0x1040C 0x10434 (.node
    (.node .leaf 0x1040D 0x10435 (.node .leaf 0x1040E 0x10436 .leaf)) 0x1040F 0x10437 (.node
    .leaf 0x10410 0x10438 (.node .leaf 0x10411 0x10439 .leaf))))) 0x10412 0x1043A (.node (.node
    (.node (.node .leaf 0x10413 0x1043B .leaf) 0x10414 0x1043C (.node .leaf 0x10415 0x1043D
    (.node .leaf 0x10416 0x1043E .leaf))) 0x10417 0x1043F (.node (.node .leaf 0x10418 0x10440
    (.node .leaf 0x10419 0x10441 .leaf)) 0x1041A 0x10442 (.node .leaf 0x1041B 0x10443 (.node
    .leaf 0x1041C 0x10444 .leaf)))) 0x1041D 0x10445 (.node (.node (.node .leaf 0x1041E 0x10446
    .leaf) 0x1041F 0x10447 (.node .leaf 0x10420 0x10448 (.node .leaf 0x10421 0x10449 .leaf)))
    0x10422 0x1044A (.node (.node .leaf 0x10423 0x1044B (.node .leaf 0x10424 0x1044C .leaf))
    0x10425 0x1044D (.node .leaf 0x10426 0x1044E (.node .leaf 0x10427 0x1044F .leaf))))))
    0x104B0 0x104D8 (.node (.node (.node (.node (.node .leaf 0x104B1 0x104D9 .leaf) 0x104B2
    0x104DA (.node .leaf 0x104B3 0x104DB (.node .leaf 0x104B4 0x104DC .leaf))) 0x104B5 0x104DD
    (.node (.node .leaf 0x104B6 0x104DE (.node .leaf 0x104B7 0x104DF .leaf)) 0x104B8 0x104E0
    (.node .leaf 0x104B9 0x104E1 (.node .leaf 0x104BA 0x104E2 .leaf)))) 0x104BB 0x104E3 (.node
    (.node (.node .leaf 0x104BC 0x104E4 .leaf) 0x104BD 0x104E5 (.node .leaf 0x104BE 0x104E6
    (.node .leaf 0x104BF 0x104E7 .leaf))) 0x104C0 0x104E8 (.node (.node .leaf 0x104C1 0x104E9
    (.node .leaf 0x104C2 0x104EA .leaf)) 0x104C3 0x104EB (.node .leaf 0x104C4 0x104EC (.node
    .leaf 0x104C5 0x104ED .leaf))))) 0x104C6 0x104EE (.node (.node (.node (.node .leaf 0x104C7
    0x104EF .leaf) 0x104C8 0x104F0 (.node .leaf 0x104C9 0x104F1 (.node .leaf 0x104CA 0x104F2
    .leaf))) 0x104CB 0x104F3 (.node (.node .leaf 0x104CC 0x104F4 (.node .leaf 0x104CD 0x104F5
    .leaf)) 0x104CE 0x104F6 (.node .leaf 0x104CF 0x104F7 (.node .leaf 0x104D0 0x104F8 .leaf))))
    0x104D1 0x104F9 (.node (.node (.node .leaf 0x104D2 0x104FA .leaf) 0x104D3 0x104FB (.node
    .leaf 0x10570 0x10597 (.node .leaf 0x10571 0x10598 .leaf))) 0x10572 0x10599 (.node (.node
    .leaf 0x10573 0x1059A (.node .leaf 0x10574 0x1059B .leaf)) 0x10575 0x1059C (.node .leaf
    0x10576 0x1059D (.node .leaf 0x10577 0x1059E .leaf)))))))) 0x10578 0x1059F (.node (.node
    (.node (.node (.node (.node (.node .leaf 0x10579 0x105A0 .leaf) 0x1057A 0x105A1 (.node .leaf
    0x1057C 0x105A3 (.node .leaf 0x1057D 0x105A4 .leaf))) 0x1057E 0x105A5 (.node (.node .leaf
    0x1057F 0x105A6 (.node .leaf 0x10580 0x105A7 .leaf)) 0x10581 0x105A8 (.node .leaf 0x10582
    0x105A9 (.node .leaf 0x10583 0x105AA .leaf)))) 0x10584 0x105AB (.node (.node (.node .leaf
    0x10585 0x105AC .leaf) 0x10586 0x105AD (.node .leaf 0x10587 0x105AE (.node .leaf 0x10588
    0x105AF .leaf))) 0x10589 0x105B0 (.node (.node .leaf 0x1058A 0x105B1 (.node .leaf 0x1058C
    0x105B3 .leaf)) 0x1058D 0x105B4 (.node .leaf 0x1058E 0x105B5 (.node .leaf 0x1058F 0x105B6
    .leaf))))) 0x10590 0x105B7 (.node (.node (.node (.node .leaf 0x10591 0x105B8 .leaf) 0x10592
    0x105B9 (.node .leaf 0x10594 0x105BB (.node .leaf 0x10595 0x105BC .leaf))) 0x10C80 0x10CC0
    (.node (.node .leaf 0x10C81 0x10CC1 (.node .leaf 0x10C82 0x10CC2 .leaf)) 0x10C83 0x10CC3
    (.node .leaf 0x10C84 0x10CC4 (.node .leaf 0x10C85 0x10CC5 .leaf)))) 0x10C86 0x10CC6 (.node
    (.node (.node .leaf 0x10C87 0x10CC7 .leaf) 0x10C88 0x10CC8 (.node .leaf 0x10C89 0x10CC9
    (.node .leaf 0x10C8A 0x10CCA .leaf))) 0x10C8B 0x10CCB (.node (.node .leaf 0x10C8C 0x10CCC
    (.node .leaf 0x10C8D 0x10CCD .leaf)) 0x10C8E 0x10CCE (.node .leaf 0x10C8F 0x10CCF (.node
    .leaf 0x10C90 0x10CD0 .leaf)))))) 0x10C91 0x10CD1 (.node (.node (.node (.node (.node .leaf
    0x10C92 0x10CD2 .leaf) 0x10C93 0x10CD3 (.node .leaf 0x10C94 0x10CD4 (.node .leaf 0x10C95
    0x10CD5 .leaf))) 0x10C96 0x10CD6 (.node (.node .leaf 0x10C97 0x10CD7 (.node .leaf 0x10C98
    0x10CD8 .leaf)) 0x10C99 0x10CD9 (.node .leaf 0x10C9A 0x10CDA (.node .leaf 0x10C9B 0x10CDB
    .leaf)))) 0x10C9C 0x10CDC (.node (.node (.node .leaf 0x10C9D 0x10CDD .leaf) 0x10C9E 0x10CDE
    (.node .leaf 0x10C9F 0x10CDF (.node .leaf 0x10CA0 0x10CE0 .leaf))) 0x10CA1 0x10CE1 (.node
    (.node .leaf 0x10CA2 0x10CE2 (.node .leaf 0x10CA3 0x10CE3 .leaf)) 0x10CA4 0x10CE4 (.node
    .leaf 0x10CA5 0x10CE5 (.node .leaf 0x10CA6 0x10CE6 .leaf))))) 0x10CA7 0x10CE7 (.node (.node
    (.node (.node .leaf 0x10CA8 0x10CE8 .leaf) 0x10CA9 0x10CE9 (.node .leaf 0x10CAA 0x10CEA
    (.node .leaf 0x10CAB 0x10CEB .leaf))) 0x10CAC 0x10CEC (.node (.node .leaf 0x10CAD 0x10CED
    (.node .leaf 0x10CAE 0x10CEE .leaf)) 0x10CAF 0x10CEF (.node .leaf 0x10CB0 0x10CF0 (.node
    .leaf 0x10CB1 0x10CF1 .leaf)))) 0x10CB2 0x10CF2 (.node (.node (.node .leaf 0x118A0 0x118C0
    .leaf) 0x118A1 0x118C1 (.node .leaf 0x118A2 0x118C2 (.node .leaf 0x118A3 0x118C3 .leaf)))
    0x118A4 0x118C4 (.node (.node .leaf 0x118A5 0x118C5 (.node .leaf 0x118A6 0x118C6 .leaf))
    0x118A7 0x118C7 (.node .leaf 0x118A8 0x118C8 (.node .leaf 0x118A9 0x118C9 .leaf)))))))
    0x118AA 0x118CA (.node (.node (.node (.node (.node (.node .leaf 0x118AB 0x118CB .leaf)
    0x118AC 0x118CC (.node .leaf 0x118AD 0x118CD (.node .leaf 0x118AE 0x118CE .leaf))) 0x118AF
    0x118CF (.node (.node .leaf 0x118B0 0x118D0 (.node .leaf 0x118B1 0x118D1 .leaf)) 0x118B2
    0x118D2 (.node .leaf 0x118B3 0x118D3 (.node .leaf 0x118B4 0x118D4 .leaf)))) 0x118B5 0x118D5
    (.node (.node (.node .leaf 0x118B6 0x118D6 .leaf) 0x118B7 0x118D7 (.node .leaf 0x118B8
    0x118D8 (.node .leaf 0x118B9 0x118D9 .leaf))) 0x118BA 0x118DA (.node (.node .leaf 0x118BB
    0x118DB (.node .leaf 0x118BC 0x118DC .leaf)) 0x118BD 0x118DD (.node .leaf 0x118BE 0x118DE
    (.node .leaf 0x118BF 0x118DF .leaf))))) 0x16E40 0x16E60 (.node (.node (.node (.node .leaf
    0x16E41 0x16E61 .leaf) 0x16E42 0x16E62 (.node .leaf 0x16E43 0x16E63 (.node .leaf 0x16E44
    0x16E64 .leaf))) 0x16E45 0x16E65 (.node (.node .leaf 0x16E46 0x16E66 (.node .leaf 0x16E47
    0x16E67 .leaf)) 0x16E48 0x16E68 (.node .leaf 0x16E49 0x16E69 (.node .leaf 0x16E4A 0x16E6A
    .leaf)))) 0x16E4B 0x16E6B (.node (.node (.node .leaf 0x16E4C 0x16E6C .leaf) 0x16E4D 0x16E6D
    (.node .leaf 0x16E4E 0x16E6E (.node .leaf 0x16E4F 0x16E6F .leaf))) 0x16E50 0x16E70 (.node
    (.node .leaf 0x16E51 0x16E71 (.node .leaf 0x16E52 0x16E72 .leaf)) 0x16E53 0x16E73 (.node
    .leaf 0x16E54 0x16E74 (.node .leaf 0x16E55 0x16E75 .leaf)))))) 0x16E56 0x16E76 (.node (.node
    (.node (.node (.node .leaf 0x16E57 0x16E77 .leaf) 0x16E58 0x16E78 (.node .leaf 0x16E59
    0x16E79 (.node .leaf 0x16E5A 0x16E7A .leaf))) 0x16E5B 0x16E7B (.node (.node .leaf 0x16E5C
    0x16E7C (.node .leaf 0x16E5D 0x16E7D .leaf)) 0x16E5E 0x16E7E (.node .leaf 0x16E5F 0x16E7F
    (.node .leaf 0x1E900 0x1E922 .leaf)))) 0x1E901 0x1E923 (.node (.node (.node .leaf 0x1E902
    0x1E924 .leaf) 0x1E903 0x1E925 (.node .leaf 0x1E904 0x1E926 (.node .leaf 0x1E905 0x1E927
    .leaf))) 0x1E906 0x1E928 (.node (.node .leaf 0x1E907 0x1E929 (.node .leaf 0x1E908 0x1E92A
    .leaf)) 0x1E909 0x1E92B (.node .leaf 0x1E90A 0x1E92C (.node .leaf 0x1E90B 0x1E92D .leaf)))))
    0x1E90C 0x1E92E (.node (.node (.node (.node .leaf 0x1E90D 0x1E92F .leaf) 0x1E90E 0x1E930
    (.node .leaf 0x1E90F 0x1E931 (.node .leaf 0x1E910 0x1E932 .leaf))) 0x1E911 0x1E933 (.node
    (.node .leaf 0x1E912 0x1E934 (.node .leaf 0x1E913 0x1E935 .leaf)) 0x1E914 0x1E936 (.node
    .leaf 0x1E915 0x1E937 (.node .leaf 0x1E916 0x1E938 .leaf)))) 0x1E917 0x1E939 (.node (.node
    (.node .leaf 0x1E918 0x1E93A .leaf) 0x1E919 0x1E93B (.node .leaf 0x1E91A 0x1E93C (.node
    .leaf 0x1E91B 0x1E93D .leaf))) 0x1E91C 0x1E93E (.node (.node .leaf 0x1E91D 0x1E93F (.node
    .leaf 0x1E91E 0x1E940 .leaf)) 0x1E91F 0x1E941 (.node .leaf 0x1E920 0x1E942 (.node .leaf
    0x1E921 0x1E943 .leaf)))))))))))

/-- Embedding of Go `unicode.ToLower` on one character: the source
function's ASCII fast path (`'A'..'Z'` shifted by 32, other ASCII
unchanged), then the simple-case-mapping lookup for everything above
ASCII (code points without a lowercase mapping are returned
unchanged). -/
def goToLowerChar (c : Char) : Char :=
  if c.toNat ≤ 127 then
    if 65 ≤ c.toNat ∧ c.toNat ≤ 90 then Char.ofNat (c.toNat + 32) else c
  else
    match lowerTree.find c.toNat with
    | some v => Char.ofNat v
    | none => c

/-- The property of each mapped value on which idempotence of
`goToLowerChar` rests: a valid scalar value that is not an ASCII
upper-case letter and is itself unmapped by the table. -/
def checkVal (v : Nat) : Bool :=
  decide (Nat.isValidChar v) &&
    (if v ≤ 127 then !(decide (65 ≤ v) && decide (v ≤ 90))
     else (lowerTree.find v).isNone)

/-- Embedding of Go `strings.ToLower`: character-wise lowering. -/
def goToLower (s : String) : String := String.mk (s.data.map goToLowerChar)

/-- `ExporterStdout` of `src/unnamed/part_002` (the `ExporterType`
enumeration is a string type in the source). -/
def ExporterStdout : String := "stdout"

/-- `ExporterOTLP` of `src/unnamed/part_002`. -/
def ExporterOTLP : String := "otlp"

/-- `ExporterCloudTrace` of `src/unnamed/part_002`. -/
def ExporterCloudTrace : String := "cloudtrace"

/-- `DefaultSamplingRatio = 0.1` of `src/unnamed/part_002`, as a rational. -/
def DefaultSamplingRatio : ℚ := 1 / 10

/-- The `Config` struct of `src/unnamed/part_002`.  `SamplingRatio` is a
`*float64` in the source, hence an `Option ℚ` here; the two Go maps are
association lists (the code only passes them through). -/
structure Config where
  serviceName : String := ""
  serviceVersion : String := ""
  environment : String := ""
  exporter : String := ""
  samplingRatio : Option ℚ := none
  endpoint : String := ""
  insecure : Bool := false
  gcpProjectID : String := ""
  headers : List (String × String) := []
  resourceAttrs : List (String × String) := []
deriving DecidableEq

/-- `Config.sanitize` of `src/unnamed/part_002`: trim the five textual
fields, lower-case the exporter selector. -/
def Config.sanitize (cfg : Config) : Config :=
  { cfg with
    serviceName := trimSpace cfg.serviceName
    serviceVersion := trimSpace cfg.serviceVersion
    environment := trimSpace cfg.environment
    endpoint := trimSpace cfg.endpoint
    gcpProjectID := trimSpace cfg.gcpProjectID
    exporter := goToLower cfg.exporter }

/-- Error message of validation rule 1 (`serviceName` missing). -/
def msgServiceNameRequired : String := "otelx: serviceName is required"

/-- Rendering of Go `%q` (the escaping of exotic characters is elided;
only the quoting matters to the properties proved here). -/
def goQuote (s : String) : String := "\x22" ++ s ++ "\x22"

/-- Error message of validation rule 2 (unknown exporter selector); also
the message of the unreachable default branch of `buildExporter`. -/
def msgUnsupportedExporter (e : String) : String :=
  "otelx: unsupported exporter " ++ goQuote e

/-- Rendering of Go `%v` on the ratio (the exact float formatting is
irrelevant to the properties proved here). -/
def ratioRepr (q : ℚ) : String := toString q.num ++ "/" ++ toString q.den

/-- Error message of validation rule 3 (ratio out of `[0,1]`). -/
def msgRatioOutOfRange (q : ℚ) : String :=
  "otelx: samplingRatio must be within [0,1], got " ++ ratioRepr q

/-- Error message of validation rule 4 (`gcpProjectId` missing for the
cloudtrace exporter). -/
def msgProjectRequired : String :=
  "otelx: gcpProjectId is required when exporter=cloudtrace"

/-- The selector values accepted by the `switch` of `Config.validate`. -/
def allowedExporter (e : String) : Bool :=
  e = "" || e = ExporterStdout || e = ExporterOTLP || e = ExporterCloudTrace

/-- Rule 3's condition: a present ratio lies outside `[0,1]`. -/
def ratioOutOfRange (o : Option ℚ) : Bool :=
  match o with
  | some r => decide (r < 0) || decide (1 < r)
  | none => false

/-- `Config.validate` of `src/unnamed/part_002`: the four rules in source
order, first violated wins. -/
def Config.validate (cfg : Config) : Option String :=
  if cfg.serviceName = "" then some msgServiceNameRequired
  else if allowedExporter cfg.exporter = false then
    some (msgUnsupportedExporter cfg.exporter)
  else if ratioOutOfRange cfg.samplingRatio then
    some (msgRatioOutOfRange (cfg.samplingRatio.getD 0))
  else if cfg.exporter = ExporterCloudTrace ∧ cfg.gcpProjectID = "" then
    some msgProjectRequired
  else none

/-- The three exporter implementations `buildExporter` can construct
(`src/exporter.go`), as a closed enumeration. -/
inductive ExporterVariant where
  | stdout
  | otlp
  | cloudtrace
deriving DecidableEq

/-- The selector name of each variant, as it appears in the source's
error messages. -/
def variantName : ExporterVariant → String
  | .stdout => "stdout"
  | .otlp => "otlp"
  | .cloudtrace => "cloudtrace"

/-- The wrapping text `fmt.Errorf("otelx: create <variant> exporter: %w", err)`
puts in front of the underlying cause in `buildExporter`. -/
def wrapCreateMsg (v : ExporterVariant) : String :=
  "otelx: create " ++ variantName v ++ " exporter: "

/-- The `switch cfg.Exporter` dispatch of `buildExporter`
(`src/exporter.go` lines 18-66): `""` and `"stdout"` share the first
case; the default branch is `none`. -/
def exporterDispatch (cfg : Config) : Option ExporterVariant :=
  if cfg.exporter = "" ∨ cfg.exporter = ExporterStdout then some .stdout
  else if cfg.exporter = ExporterOTLP then some .otlp
  else if cfg.exporter = ExporterCloudTrace then some .cloudtrace
  else none

/-- Outcomes of the effectful steps `Setup` delegates to external
collaborators: the underlying exporter constructors
(`stdouttrace.New` / `otlptracegrpc.New` / `cloudtrace.New`),
`resource.New`, and the SDK tracer provider's `Shutdown` (the function
the returned handle's shutdown closure calls).  `none` is success,
`some cause` is failure with that underlying cause. -/
structure Env where
  exporterConstruction : ExporterVariant → Option String
  resourceResult : Option String
  tpShutdown : Nat → Option String

/-- `buildExporter` of `src/exporter.go`: dispatch on the selector, run
the variant's constructor, wrap a construction failure with the
variant-identifying text; the default branch fails with the
"unsupported exporter" message. -/
def buildExporter (env : Env) (cfg : Config) : Except String ExporterVariant :=
  match exporterDispatch cfg with
  | some v =>
    match env.exporterConstruction v with
    | some cause => .error (wrapCreateMsg v ++ cause)
    | none => .ok v
  | none => .error (msgUnsupportedExporter cfg.exporter)

/-- Propagation codecs as `Setup` distinguishes them: the default
composite `NewCompositeTextMapPropagator(TraceContext{}, Baggage{})`,
or a caller-supplied propagator value (identified opaquely). -/
inductive Propagator where
  | compositeDefault
  | external (id : Nat)
deriving DecidableEq

/-- The `Option` closures of `src/options.go`, as data: `WithGlobal`,
`WithPropagator` (whose Go argument is a nilable interface, hence an
`Option`), `WithResourceOptions` (its `resource.Option` arguments
identified opaquely), and the test-only `withSamplerHook`. -/
inductive SetupOpt where
  | withGlobal
  | withPropagator (p : Option Propagator)
  | withResourceOptions (ropts : List Nat)
  | withSamplerHook
deriving DecidableEq

/-- The `setupOptions` struct of `src/options.go` (the zero value of each
field is the Go zero value). -/
structure SetupOptions where
  global : Bool := false
  propagator : Option Propagator := none
  resourceOpts : List Nat := []
  samplerHook : Bool := false
deriving DecidableEq

/-- Application of one option closure to the accumulating `setupOptions`
(the bodies of `WithGlobal`, `WithPropagator`, `WithResourceOptions`,
`withSamplerHook` in `src/options.go`). -/
def applyOpt (o : SetupOptions) : SetupOpt → SetupOptions
  | .withGlobal => { o with global := true }
  | .withPropagator p => { o with propagator := p }
  | .withResourceOptions l => { o with resourceOpts := o.resourceOpts ++ l }
  | .withSamplerHook => { o with samplerHook := true }

/-- The option-processing loop of `Setup` (`src/provider.go` lines
40-45): nil entries of the variadic `opts` are skipped, the rest are
applied in order to a zero-valued `setupOptions`. -/
def resolveOptions (opts : List (Option SetupOpt)) : SetupOptions :=
  (opts.filterMap id).foldl applyOpt {}

/-- What the assembled `sdktrace.TracerProvider` was built from (the
arguments of `sdktrace.NewTracerProvider` that the claims are about). -/
structure TracerProv where
  samplerRatio : ℚ
  exporter : ExporterVariant
deriving DecidableEq

/-- The `Provider` struct of `src/provider.go`: the (nilable) tracer
provider, propagator, and private shutdown closure. -/
structure Provider where
  TP : Option TracerProv
  propagator : Option Propagator
  shutdown : Option (Nat → Option String)

/-- Prefix of the error wrapping a `resource.New` failure in `Setup`. -/
def msgBuildResource : String := "otelx: build resource: "

/-- The observable actions `Setup` performs, in source order. -/
inductive Event where
  | exporterBuilt (v : ExporterVariant)
  | exporterReleased
  | samplerObserved (r : ℚ)
  | resourceBuilt
  | providerBuilt
  | globalRegistered
deriving DecidableEq

/-- `Setup` of `src/provider.go`: sanitize, validate, process options,
build the exporter, resolve the sampler (invoking the hook), compose the
resource, assemble the provider and propagator, optionally register
globally, and return the handle.  Besides the result it returns the list
of `Event`s performed, in source order.  `Event.exporterReleased` (an
`exporter.Shutdown` call) appears in no branch because the source
contains no such call: on the `resource.New` failure path the function
returns the wrapped error directly. -/
def Setup (env : Env) (cfg0 : Config) (opts : List (Option SetupOpt)) :
    Except String Provider × List Event :=
  let cfg := cfg0.sanitize
  match cfg.validate with
  | some e => (.error e, [])
  | none =>
    let options := resolveOptions opts
    match buildExporter env cfg with
    | .error e => (.error e, [])
    | .ok v =>
      let sampler := match cfg.samplingRatio with
        | some r => r
        | none => DefaultSamplingRatio
      let hookEvents := if options.samplerHook then [Event.samplerObserved sampler] else []
      match env.resourceResult with
      | some cause => (.error (msgBuildResource ++ cause), Event.exporterBuilt v :: hookEvents)
      | none =>
        let tp : TracerProv := { samplerRatio := sampler, exporter := v }
        let prop := match options.propagator with
          | some p => p
          | none => Propagator.compositeDefault
        let globalEvents := if options.global then [Event.globalRegistered] else []
        (.ok { TP := some tp, propagator := some prop, shutdown := some env.tpShutdown },
         Event.exporterBuilt v ::
           (hookEvents ++ [Event.resourceBuilt, Event.providerBuilt] ++ globalEvents))

/-- `Provider.Shutdown` of `src/provider.go` lines 26-31: the receiver is
a nilable pointer; a nil receiver or a nil shutdown field returns nil. -/
def Shutdown (p : Option Provider) (ctx : Nat) : Option String :=
  match p with
  | none => none
  | some pr =>
    match pr.shutdown with
    | none => none
    | some f => f ctx

/-- The error of a `Setup` result, if any. -/
def setupErr? : Except String Provider → Option String
  | .error e => some e
  | .ok _ => none

/-- The tracer provider of a successful `Setup` result, if any. -/
def tpOf : Except String Provider → Option TracerProv
  | .ok pr => pr.TP
  | .error _ => none

/-- The ratios the sampler observation hook was invoked with, in order. -/
def obsRatios (l : List Event) : List ℚ :=
  l.filterMap fun e =>
    match e with
    | .samplerObserved r => some r
    | _ => none

/-- `needle` occurs as a contiguous substring of `hay` (the sense in which
an error message "references" a field name). -/
def containsStr (needle hay : String) : Prop := needle.data <:+: hay.data

instance (a b : String) : Decidable (containsStr a b) :=
  inferInstanceAs (Decidable (a.data <:+: b.data))

/-- The optional message holds `needle` as a substring (a `none` message
satisfies nothing). -/
def optMsgContains (needle : String) : Option String → Prop
  | some m => containsStr needle m
  | none => False

instance (a : String) (o : Option String) : Decidable (optMsgContains a o) := by
  cases o <;> unfold optMsgContains <;> infer_instance

/-- Spec-side description of validation: the indices (1-4) of the rules a
configuration violates, in the spec's fixed checking order
service-name, exporter-selector, sampling-ratio, backend-identifier. -/
def violatedRules (cfg : Config) : List Nat :=
  (if cfg.serviceName = "" then [1] else []) ++
  (if allowedExporter cfg.exporter = false then [2] else []) ++
  (if ratioOutOfRange cfg.samplingRatio then [3] else []) ++
  (if cfg.exporter = ExporterCloudTrace ∧ cfg.gcpProjectID = "" then [4] else [])

/-- The configuration field each validation rule is about. -/
def fieldOf : Nat → String
  | 1 => "serviceName"
  | 2 => "exporter"
  | 3 => "samplingRatio"
  | 4 => "gcpProjectId"
  | _ => ""

/-- Spec-side description of the functional-options overlay: the argument
of the last `WithPropagator` in the list, if any. -/
def lastOverrideCore : List SetupOpt → Option (Option Propagator)
  | [] => none
  | .withPropagator p :: rest =>
    match lastOverrideCore rest with
    | some q => some q
    | none => some p
  | _ :: rest => lastOverrideCore rest

/-- The argument of the last `WithPropagator` among the non-nil options
`Setup` was given, if any. -/
def lastPropOverride (opts : List (Option SetupOpt)) : Option (Option Propagator) :=
  lastOverrideCore (opts.filterMap id)

/-! Concrete instances used to witness the theorems. -/

/-- An environment in which every effectful step succeeds. -/
def envAllOk : Env where
  exporterConstruction := fun _ => none
  resourceResult := none
  tpShutdown := fun _ => none

/-- An environment in which exporter construction succeeds but
`resource.New` fails. -/
def envResourceFailing : Env where
  exporterConstruction := fun _ => none
  resourceResult := some "detector failure"
  tpShutdown := fun _ => none

/-- An environment in which every exporter constructor fails with a
"dial timeout" cause. -/
def envCtorFailing : Env where
  exporterConstruction := fun _ => some "dial timeout"
  resourceResult := none
  tpShutdown := fun _ => none

/-- A minimal valid configuration: a service name and all defaults. -/
def cfgSvc : Config := { serviceName := "svc" }

/-- The options list passing two propagator overrides (and one nil
option). -/
def optsTwoOverrides : List (Option SetupOpt) :=
  [some (SetupOpt.withPropagator (some (Propagator.external 3))), none,
   some (SetupOpt.withPropagator (some (Propagator.external 7)))]

/-- The handle `Setup envAllOk cfgSvc optsTwoOverrides` returns. -/
def prOverrideW : Provider where
  TP := some { samplerRatio := DefaultSamplingRatio, exporter := ExporterVariant.stdout }
  propagator := some (Propagator.external 7)
  shutdown := some fun _ => none

/-- The handle `Setup envAllOk cfgSvc []` returns. -/
def prDefaultW : Provider where
  TP := some { samplerRatio := DefaultSamplingRatio, exporter := ExporterVariant.stdout }
  propagator := some Propagator.compositeDefault
  shutdown := some fun _ => none

end Otelx

namespace Otelx

/-! Supporting lemmas. -/

theorem toNat_ofNat_valid (n : Nat) (h : n.isValidChar) : (Char.ofNat n).toNat = n := by
  unfold Char.ofNat
  rw [dif_pos h]
  unfold Char.ofNatAux Char.toNat
  simp [UInt32.toNat, BitVec.toNat_ofNatLt]

theorem find_val_prop (t : CaseTree) (p : Nat → Bool) (h : t.allVals p = true)
    (n v : Nat) (hf : t.find n = some v) : p v = true := by
  induction t with
  | leaf => simp [CaseTree.find] at hf
  | node l k w r ihl ihr =>
    simp only [CaseTree.allVals, Bool.and_eq_true] at h
    unfold CaseTree.find at hf
    split_ifs at hf
    · exact ihl h.1.2 hf
    · exact ihr h.2 hf
    · cases hf
      exact h.1.1

set_option maxRecDepth 4000 in
theorem tableChecks : lowerTree.allVals checkVal = true := by decide

theorem goToLowerChar_idem (c : Char) : goToLowerChar (goToLowerChar c) = goToLowerChar c := by
  by_cases hA : c.toNat ≤ 127
  · by_cases h : 65 ≤ c.toNat ∧ c.toNat ≤ 90
    · have hv : Nat.isValidChar (c.toNat + 32) := Or.inl (by omega)
      have ht : (Char.ofNat (c.toNat + 32)).toNat = c.toNat + 32 := toNat_ofNat_valid _ hv
      unfold goToLowerChar
      rw [if_pos hA, if_pos h,
        if_pos (show (Char.ofNat (c.toNat + 32)).toNat ≤ 127 by omega),
        if_neg (show ¬(65 ≤ (Char.ofNat (c.toNat + 32)).toNat ∧
          (Char.ofNat (c.toNat + 32)).toNat ≤ 90) by omega)]
    · unfold goToLowerChar
      rw [if_pos hA, if_neg h, if_pos hA, if_neg h]
  · rcases hf : lowerTree.find c.toNat with _ | v
    · unfold goToLowerChar
      rw [if_neg hA]
      simp only [hf]
      rw [if_neg hA]
    · have hcv : checkVal v = true := find_val_prop _ _ tableChecks _ _ hf
      unfold checkVal at hcv
      simp only [Bool.and_eq_true, decide_eq_true_eq] at hcv
      obtain ⟨hvalid, hrest⟩ := hcv
      have htv : (Char.ofNat v).toNat = v := toNat_ofNat_valid _ hvalid
      unfold goToLowerChar
      rw [if_neg hA]
      simp only [hf]
      simp only [htv]
      by_cases hvA : v ≤ 127
      · rw [if_pos hvA] at hrest
        rw [if_pos hvA]
        simp only [Bool.not_eq_eq_eq_not, Bool.not_true, Bool.and_eq_false_imp,
          decide_eq_true_eq, decide_eq_false_iff_not] at hrest
        rw [if_neg (show ¬(65 ≤ v ∧ v ≤ 90) from fun hand => hrest hand.1 hand.2)]
      · rw [if_neg hvA] at hrest
        have hfv : lowerTree.find v = none := by
          cases hfind : lowerTree.find v
          · rfl
          · rw [hfind] at hrest
            simp at hrest
        rw [if_neg hvA]
        simp only [hfv]

theorem dropWhile_idem (p : Char → Bool) (l : List Char) :
    (l.dropWhile p).dropWhile p = l.dropWhile p := by
  induction l with
  | nil => simp
  | cons h t ih =>
    by_cases hp : p h <;> simp [List.dropWhile_cons, hp, ih]

theorem dropWhile_eq_self_of_isPre (p : Char → Bool) (m a : List Char)
    (hm : ∃ r, m ++ r = a) (ha : a.dropWhile p = a) : m.dropWhile p = m := by
  cases m with
  | nil => simp
  | cons x m2 =>
    obtain ⟨r, hr⟩ := hm
    subst hr
    rw [List.cons_append] at ha
    rw [List.dropWhile_cons] at ha ⊢
    by_cases hx : p x
    · exfalso
      rw [if_pos hx] at ha
      have : (List.dropWhile p (m2 ++ r)).length ≤ (m2 ++ r).length :=
        (List.dropWhile_sublist p).length_le
      rw [ha] at this
      simp at this
    · rw [if_neg hx]

theorem trimSpaceList_idem (l : List Char) :
    trimSpaceList (trimSpaceList l) = trimSpaceList l := by
  unfold trimSpaceList
  set p := goIsSpace
  set a := l.dropWhile p with ha
  set b := (a.reverse).dropWhile p with hb
  have hpre : ∃ r, b.reverse ++ r = a := by
    have hsuf : ∃ t, t ++ b = a.reverse := by
      rw [hb]
      exact ⟨(a.reverse).takeWhile p, List.takeWhile_append_dropWhile ..⟩
    obtain ⟨t, ht⟩ := hsuf
    refine ⟨t.reverse, ?_⟩
    have := congrArg List.reverse ht
    simpa [List.reverse_append] using this
  have haa : a.dropWhile p = a := dropWhile_idem p l
  have h1 : (b.reverse).dropWhile p = b.reverse := dropWhile_eq_self_of_isPre p _ a hpre haa
  have h2 : ((b.reverse).reverse).dropWhile p = b := by
    rw [List.reverse_reverse, hb]
    exact dropWhile_idem p a.reverse
  rw [h1, h2]

theorem trimSpace_idem (s : String) : trimSpace (trimSpace s) = trimSpace s :=
  congrArg String.mk (trimSpaceList_idem s.data)

theorem goToLower_idem (s : String) : goToLower (goToLower s) = goToLower s := by
  unfold goToLower
  refine congrArg String.mk ?_
  rw [List.map_map]
  exact List.map_congr_left fun a _ => goToLowerChar_idem a

theorem containsStr_append_left (n a b : String) (h : containsStr n a) :
    containsStr n (a ++ b) := by
  obtain ⟨s, t, hst⟩ := h
  exact ⟨s, t ++ b.data, by rw [String.data_append, ← hst]; simp⟩

theorem containsStr_append_right (n a b : String) (h : containsStr n b) :
    containsStr n (a ++ b) := by
  obtain ⟨s, t, hst⟩ := h
  exact ⟨a.data ++ s, t, by rw [String.data_append, ← hst]; simp⟩

theorem foldl_applyOpt_propagator (l : List SetupOpt) (o : SetupOptions) :
    (l.foldl applyOpt o).propagator =
      match lastOverrideCore l with
      | some q => q
      | none => o.propagator := by
  induction l generalizing o with
  | nil => rfl
  | cons h t ih =>
    cases h with
    | withGlobal => rw [List.foldl_cons, ih]; rfl
    | withPropagator p =>
      rw [List.foldl_cons, ih]
      rcases hlt : lastOverrideCore t with _ | q
      · simp [lastOverrideCore, hlt, applyOpt]
      · simp [lastOverrideCore, hlt]
    | withResourceOptions l2 => rw [List.foldl_cons, ih]; rfl
    | withSamplerHook => rw [List.foldl_cons, ih]; rfl

theorem resolveOptions_propagator (opts : List (Option SetupOpt)) :
    (resolveOptions opts).propagator =
      match lastPropOverride opts with
      | some q => q
      | none => none := by
  unfold resolveOptions lastPropOverride
  rw [foldl_applyOpt_propagator]

theorem resolved_eq_getD (o : Option ℚ) :
    (match o with
      | some r => r
      | none => DefaultSamplingRatio) = o.getD DefaultSamplingRatio := by
  cases o <;> rfl

theorem validate_none_iff (cfg : Config) :
    cfg.validate = none ↔ violatedRules cfg = [] := by
  unfold Config.validate violatedRules
  split_ifs with h1 h2 h3 h4 <;> simp

theorem validate_first_violated (cfg : Config) (i : Nat) (rest : List Nat)
    (hv : violatedRules cfg = i :: rest) :
    optMsgContains (fieldOf i) cfg.validate := by
  unfold violatedRules at hv
  unfold Config.validate
  by_cases h1 : cfg.serviceName = ""
  · rw [if_pos h1] at hv
    rw [if_pos h1]
    simp only [List.cons_append, List.cons.injEq] at hv
    obtain ⟨hi, _⟩ := hv
    subst hi
    decide
  · rw [if_neg h1] at hv
    rw [if_neg h1]
    by_cases h2 : allowedExporter cfg.exporter = false
    · rw [if_pos h2] at hv
      rw [if_pos h2]
      simp only [List.nil_append, List.cons_append, List.cons.injEq] at hv
      obtain ⟨hi, _⟩ := hv
      subst hi
      show containsStr (fieldOf 2) (msgUnsupportedExporter cfg.exporter)
      unfold msgUnsupportedExporter
      exact containsStr_append_left _ _ _ (by decide)
    · rw [if_neg h2] at hv
      rw [if_neg h2]
      by_cases h3 : ratioOutOfRange cfg.samplingRatio = true
      · rw [if_pos h3] at hv
        rw [if_pos h3]
        simp only [List.nil_append, List.cons_append, List.cons.injEq] at hv
        obtain ⟨hi, _⟩ := hv
        subst hi
        show containsStr (fieldOf 3) (msgRatioOutOfRange (cfg.samplingRatio.getD 0))
        unfold msgRatioOutOfRange
        exact containsStr_append_left _ _ _ (by decide)
      · rw [if_neg h3] at hv
        rw [if_neg h3]
        by_cases h4 : cfg.exporter = ExporterCloudTrace ∧ cfg.gcpProjectID = ""
        · rw [if_pos h4] at hv
          rw [if_pos h4]
          simp only [List.nil_append, List.cons.injEq] at hv
          obtain ⟨hi, _⟩ := hv
          subst hi
          decide
        · rw [if_neg h4] at hv
          simp at hv

theorem setup_validation_error (env : Env) (cfg : Config) (opts : List (Option SetupOpt))
    (e : String) (h : (cfg.sanitize).validate = some e) :
    Setup env cfg opts = (.error e, []) := by
  simp only [Setup]
  rw [h]

/-! The claims. -/

/-- Claim C2: for every validated Configuration, the resolved sampling
ratio passed to the sampler -- and observed exactly once by the
observation hook when one is registered in the Option Set -- equals the
configured `samplingRatio` when that field is present (including when it
is explicitly zero) and equals the fixed default `0.1` when the field is
absent. -/
theorem C2_sampler_resolution (env : Env) (cfg : Config) (opts : List (Option SetupOpt))
    (v : ExporterVariant)
    (hval : (cfg.sanitize).validate = none)
    (hdisp : exporterDispatch cfg.sanitize = some v)
    (hexp : env.exporterConstruction v = none)
    (hhook : (resolveOptions opts).samplerHook = true) :
    obsRatios (Setup env cfg opts).2 = [cfg.samplingRatio.getD DefaultSamplingRatio] ∧
    (env.resourceResult = none →
      tpOf (Setup env cfg opts).1 =
        some { samplerRatio := cfg.samplingRatio.getD DefaultSamplingRatio, exporter := v }) := by
  have hbe : buildExporter env cfg.sanitize = .ok v := by
    simp [buildExporter, hdisp, hexp]
  have hsr : (cfg.sanitize).samplingRatio = cfg.samplingRatio := rfl
  rcases hres : env.resourceResult with _ | cause <;>
    simp [Setup, hval, hbe, hhook, hres, hsr, resolved_eq_getD, obsRatios, tpOf]

/-- Claim C2 witness: a configuration without a ratio resolves to the
default `0.1`, one with an explicit zero resolves to `0`. -/
theorem C2_sampler_resolution_witness :
    obsRatios (Setup envAllOk cfgSvc [some SetupOpt.withSamplerHook]).2 =
      [DefaultSamplingRatio] ∧
    obsRatios (Setup envAllOk { serviceName := "svc", samplingRatio := some 0 }
      [some SetupOpt.withSamplerHook]).2 = [(0 : ℚ)] := by
  constructor
  · exact (C2_sampler_resolution envAllOk cfgSvc [some SetupOpt.withSamplerHook]
      ExporterVariant.stdout rfl rfl rfl rfl).1
  · exact (C2_sampler_resolution envAllOk { serviceName := "svc", samplingRatio := some 0 }
      [some SetupOpt.withSamplerHook] ExporterVariant.stdout rfl rfl rfl rfl).1

/-- Claim C3 (code bug): the spec requires any exporter successfully
constructed before a later `Setup` failure to be released before the
error is returned, but on the `resource.New` failure path the source
returns the wrapped error without any `exporter.Shutdown` call: the
exporter is built, the error is returned, and no release action
occurs. -/
theorem C3_exporter_leaked_on_resource_failure :
    setupErr? (Setup envResourceFailing cfgSvc []).1 =
      some (msgBuildResource ++ "detector failure") ∧
    Event.exporterBuilt ExporterVariant.stdout ∈ (Setup envResourceFailing cfgSvc []).2 ∧
    Event.exporterReleased ∉ (Setup envResourceFailing cfgSvc []).2 :=
  ⟨rfl, by decide, by decide⟩

/-- Claim C4: validation checks the rules in the fixed order
service-name, exporter-selector, sampling-ratio, backend-identifier
(`violatedRules` lists the violated rules in exactly that order, and the
returned error is the first one\'s); each validation error message
references the offending field name; and a validation error is returned
before any exporter construction (the error pair carries an empty event
list). -/
theorem C4_validation_order (cfg : Config) (i : Nat) (rest : List Nat)
    (env : Env) (opts : List (Option SetupOpt)) (e : String) :
    (violatedRules cfg = [] ↔ cfg.validate = none) ∧
    (violatedRules cfg = i :: rest → optMsgContains (fieldOf i) cfg.validate) ∧
    ((cfg.sanitize).validate = some e → Setup env cfg opts = (.error e, [])) :=
  ⟨(validate_none_iff cfg).symm,
   fun hv => validate_first_violated cfg i rest hv,
   fun h => setup_validation_error env cfg opts e h⟩

/-- Claim C4 witness: a configuration violating rules 2 and 3 at once is
rejected with the rule-2 message (which references "exporter"), and
`Setup` on a name-less configuration returns the serviceName error with
no exporter-construction event. -/
theorem C4_validation_order_witness :
    optMsgContains (fieldOf 2)
      (Config.validate { serviceName := "svc", exporter := "bogus", samplingRatio := some 7 }) ∧
    Setup envAllOk {} [] = (.error msgServiceNameRequired, []) := by
  have h1 := (C4_validation_order
    { serviceName := "svc", exporter := "bogus", samplingRatio := some 7 } 2 [3]
    envAllOk [] "").2.1 (by decide)
  have h2 := (C4_validation_order {} 1 [] envAllOk [] msgServiceNameRequired).2.2 (by rfl)
  exact ⟨h1, h2⟩

/-- Claim C5: a Configuration that passed sanitization and validation has
an exporter selector accepted by the validator switch, and the dispatch
of `buildExporter` therefore reaches an explicit case -- the default
("unsupported exporter") branch, encoded as `none` of
`exporterDispatch`, is unreachable. -/
theorem C5_default_branch_unreachable (cfg : Config)
    (h : (cfg.sanitize).validate = none) :
    allowedExporter (cfg.sanitize).exporter = true ∧
      (exporterDispatch (cfg.sanitize)).isSome = true := by
  have hallow : allowedExporter (cfg.sanitize).exporter = true := by
    unfold Config.validate at h
    by_cases h1 : (cfg.sanitize).serviceName = ""
    · rw [if_pos h1] at h
      exact absurd h (by simp)
    · rw [if_neg h1] at h
      by_cases h2 : allowedExporter (cfg.sanitize).exporter = false
      · rw [if_pos h2] at h
        exact absurd h (by simp)
      · exact eq_true_of_ne_false h2
  refine ⟨hallow, ?_⟩
  unfold exporterDispatch
  by_cases hd1 : (cfg.sanitize).exporter = "" ∨ (cfg.sanitize).exporter = ExporterStdout
  · rw [if_pos hd1]
    rfl
  · rw [if_neg hd1]
    by_cases hd2 : (cfg.sanitize).exporter = ExporterOTLP
    · rw [if_pos hd2]
      rfl
    · rw [if_neg hd2]
      have hd3 : (cfg.sanitize).exporter = ExporterCloudTrace := by
        unfold allowedExporter at hallow
        simp only [Bool.or_eq_true, decide_eq_true_eq] at hallow
        rcases hallow with ((hh | hh) | hh) | hh
        · exact absurd (Or.inl hh) hd1
        · exact absurd (Or.inr hh) hd1
        · exact absurd hh hd2
        · exact hh
      rw [if_pos hd3]
      rfl

/-- Claim C5 witness: the empty-selector configuration passes validation
and dispatches to an explicit case. -/
theorem C5_default_branch_unreachable_witness :
    allowedExporter (cfgSvc.sanitize).exporter = true ∧
      (exporterDispatch (cfgSvc.sanitize)).isSome = true :=
  C5_default_branch_unreachable cfgSvc (by rfl)

/-- Claim C6: sanitization is idempotent -- applying the trim/lowercase
normalization twice yields the same Configuration as applying it once. -/
theorem C6_sanitize_idempotent (cfg : Config) : cfg.sanitize.sanitize = cfg.sanitize := by
  unfold Config.sanitize
  simp [trimSpace_idem, goToLower_idem]

/-- Claim C7: an empty exporter selector is dispatched by the factory to
the same construction path as `"stdout"` (the shared first case), and
any selector outside the closed enumeration is rejected at validation
time. -/
theorem C7_empty_selector_is_stdout (cfg : Config) :
    (cfg.exporter = "" →
      exporterDispatch cfg = some ExporterVariant.stdout ∧
      exporterDispatch { cfg with exporter := ExporterStdout } = some ExporterVariant.stdout) ∧
    (allowedExporter cfg.exporter = false → (cfg.validate).isSome = true) := by
  constructor
  · intro he
    constructor
    · unfold exporterDispatch
      rw [if_pos (Or.inl he)]
    · unfold exporterDispatch
      rw [if_pos (Or.inr rfl)]
  · intro hbad
    unfold Config.validate
    by_cases h1 : cfg.serviceName = ""
    · rw [if_pos h1]
      rfl
    · rw [if_neg h1, if_pos hbad]
      rfl

/-- Claim C7 witness: the empty selector and `"stdout"` share the stdout
path, and the selector `"jaeger"` is rejected by validation. -/
theorem C7_empty_selector_is_stdout_witness :
    (exporterDispatch cfgSvc = some ExporterVariant.stdout ∧
      exporterDispatch { cfgSvc with exporter := ExporterStdout } =
        some ExporterVariant.stdout) ∧
    (Config.validate { serviceName := "svc", exporter := "jaeger" }).isSome = true :=
  ⟨(C7_empty_selector_is_stdout cfgSvc).1 rfl,
   (C7_empty_selector_is_stdout { serviceName := "svc", exporter := "jaeger" }).2 (by decide)⟩

/-- Claim C8: a failing exporter construction is reported as the
underlying cause wrapped behind text naming the variant -- the message
contains "stdout exporter" / "otlp exporter" / "cloudtrace exporter"
for the respective variant, and still contains the cause. -/
theorem C8_construction_error_wrapped (env : Env) (cfg : Config)
    (v : ExporterVariant) (cause : String)
    (h1 : exporterDispatch cfg = some v)
    (h2 : env.exporterConstruction v = some cause) :
    buildExporter env cfg = .error (wrapCreateMsg v ++ cause) ∧
    containsStr (variantName v ++ " exporter") (wrapCreateMsg v ++ cause) ∧
    containsStr cause (wrapCreateMsg v ++ cause) := by
  refine ⟨?_, ?_, ?_⟩
  · simp [buildExporter, h1, h2]
  · exact containsStr_append_left _ _ _ (by cases v <;> decide)
  · exact containsStr_append_right _ _ _ ⟨[], [], by simp⟩

/-- Claim C8 witness: an otlp construction failure carries both the
"otlp exporter" marker and the underlying cause. -/
theorem C8_construction_error_wrapped_witness :
    buildExporter envCtorFailing { serviceName := "svc", exporter := "otlp" } =
      .error (wrapCreateMsg ExporterVariant.otlp ++ "dial timeout") ∧
    containsStr (variantName ExporterVariant.otlp ++ " exporter")
      (wrapCreateMsg ExporterVariant.otlp ++ "dial timeout") ∧
    containsStr "dial timeout" (wrapCreateMsg ExporterVariant.otlp ++ "dial timeout") :=
  C8_construction_error_wrapped envCtorFailing _ ExporterVariant.otlp "dial timeout"
    (by decide) rfl

/-- Claim C9: on every successful Setup the handle propagation codec is
the last propagator override supplied in the options when one was
supplied, and otherwise the composite of the trace-context and baggage
formats; the handle propagator and provider are non-nil. -/
theorem C9_propagator_resolution (env : Env) (cfg : Config) (opts : List (Option SetupOpt))
    (pr : Provider) (p : Propagator)
    (h : (Setup env cfg opts).1 = .ok pr) :
    (lastPropOverride opts = some (some p) → pr.propagator = some p) ∧
    (lastPropOverride opts = none → pr.propagator = some Propagator.compositeDefault) ∧
    pr.propagator.isSome = true ∧ pr.TP.isSome = true := by
  rcases hval : (cfg.sanitize).validate with _ | e
  · rcases hbe : buildExporter env cfg.sanitize with e2 | v
    · simp [Setup, hval, hbe] at h
    · rcases hres : env.resourceResult with _ | cause
      · simp only [Setup, hval, hbe, hres] at h
        injection h with h2
        subst h2
        refine ⟨?_, ?_, rfl, rfl⟩
        · intro hl
          simp [resolveOptions_propagator, hl]
        · intro hl
          simp [resolveOptions_propagator, hl]
      · simp [Setup, hval, hbe, hres] at h
  · simp [Setup, hval] at h

/-- Claim C9 witness: with two overrides (and a nil option in between)
the last override wins; with no options at all the composite default is
used and the handle is fully populated. -/
theorem C9_propagator_resolution_witness :
    prOverrideW.propagator = some (Propagator.external 7) ∧
    prDefaultW.propagator = some Propagator.compositeDefault ∧
    prDefaultW.propagator.isSome = true ∧ prDefaultW.TP.isSome = true :=
  ⟨(C9_propagator_resolution envAllOk cfgSvc optsTwoOverrides prOverrideW
      (Propagator.external 7) rfl).1 rfl,
   (C9_propagator_resolution envAllOk cfgSvc [] prDefaultW
      (Propagator.external 7) rfl).2.1 rfl,
   (C9_propagator_resolution envAllOk cfgSvc [] prDefaultW
      (Propagator.external 7) rfl).2.2.1,
   (C9_propagator_resolution envAllOk cfgSvc [] prDefaultW
      (Propagator.external 7) rfl).2.2.2⟩

/-- Claim C10: calling Shutdown on a nil Provider pointer, or on a
Provider whose shutdown closure is nil, returns success (no error) for
every context. -/
theorem C10_shutdown_nil_safe (p : Option Provider) (ctx : Nat)
    (h : p = none ∨ ∃ pr, p = some pr ∧ pr.shutdown = none) :
    Shutdown p ctx = none := by
  rcases h with h | ⟨pr, hp, hs⟩
  · rw [h]
    rfl
  · rw [hp]
    simp [Shutdown, hs]

/-- Claim C10 witness: both degenerate handles shut down successfully. -/
theorem C10_shutdown_nil_safe_witness :
    Shutdown none 0 = none ∧
      Shutdown (some { TP := none, propagator := none, shutdown := none }) 0 = none :=
  ⟨C10_shutdown_nil_safe none 0 (Or.inl rfl),
   C10_shutdown_nil_safe _ 0 (Or.inr ⟨_, rfl, rfl⟩)⟩

end Otelx
